import Mathlib

/-!
Shallow embedding of the QuickBooks Migrator transformation engine
(`quickbooks_migrator/doctype/quickbooks_migrator/quickbooks_migrator.py`).

Monetary amounts are modelled as exact rationals (`ℚ`).  `frappe.utils.flt(x, 2)`
is modelled by `flt2` (rounding to two decimal places); the tie-breaking mode of
Python's rounding is not exercised by any theorem below.  Python dictionaries
whose keys may be absent are modelled as structures with `Option` fields, and
Python exceptions (KeyError, IndexError, unbound locals, StopIteration, ...)
are modelled with `Except String`.  The persistent store owned by the frappe
storage collaborator is the `DB` structure; company scoping is implicit (one
`DB` per company, matching the single-company filters used throughout).
-/

namespace QBMigrator

/-- Floor of a rational, computed from its normalised numerator and
denominator (the denominator is positive, so `Int.fdiv` is exact floor
division). -/
def ratFloor (q : ℚ) : ℤ := q.num.fdiv q.den

/-- Models `frappe.utils.flt(x, 2)`: round to 2 decimal places
(`round x = ⌊x + 1/2⌋`; the tie-breaking mode of Python's rounding is not
exercised by any theorem below). -/
def flt2 (q : ℚ) : ℚ := (ratFloor (q * 100 + 1/2) : ℤ) / 100

/-- An ERPNext `Account` row, with the custom `quickbooks_id` field
(`_make_custom_quickbooks_id_field`) and the columns read by the migrator
(`account_type`, `account_currency`, `tax_rate`). -/
structure Acct where
  name : String
  quickbooksId : Option String := none
  accountType : Option String := none
  accountCurrency : Option String := none
  taxRate : Option ℚ := none
  deriving Repr, DecidableEq

/-- One row of the `accounts` child table handed to `frappe.get_doc({"doctype":
"Journal Entry", ...})` in `__save_journal_entry` (source 999-1009).  Keys that
the various transformers may leave out of the Python dict are `Option` fields. -/
structure AccountLine where
  account : String
  partyType : Option String := none
  party : Option String := none
  referenceType : Option String := none
  referenceName : Option String := none
  exchangeRate : Option ℚ := none
  debitInAccountCurrency : Option ℚ := none
  creditInAccountCurrency : Option ℚ := none
  costCenter : Option String := none
  userRemark : Option String := none
  deriving Repr, DecidableEq

/-- A persisted (inserted and submitted) Journal Entry. -/
structure JournalEntry where
  name : String
  quickbooksId : String
  postingDate : String
  accounts : List AccountLine
  deriving Repr, DecidableEq

/-- A flattened General Ledger report line as produced by
`_get_gl_entries_from_section` (source 449-465). -/
structure GLLine where
  account : String
  date : String := ""
  txnType : String := ""
  txnId : Option String := none
  credit : ℚ := 0
  debit : ℚ := 0
  customer : String := ""
  vendor : String := ""
  memo : String := ""
  currency : String := ""
  debtHomeAmt : ℚ := 0
  creditHomeAmt : ℚ := 0
  deriving Repr, DecidableEq

/-- An ERPNext `Customer` row (the columns the migrator reads). -/
structure Customer where
  name : String
  quickbooksId : String
  deriving Repr, DecidableEq

/-- An ERPNext `Item` row with its first `item_defaults` child
(`_save_item`, `_save_purchase`). -/
structure Item where
  name : String
  stockUom : String := "Unit"
  quickbooksId : Option String := none
  expenseAccount : Option String := none
  incomeAccount : Option String := none
  deriving Repr, DecidableEq

/-- A QuickBooks `TaxRate` entity held in `self.tax_rates`
(`_preprocess_tax_rates`). -/
structure TaxRateEntity where
  id : String
  rateValue : ℚ
  deriving Repr, DecidableEq

/-- One `TaxRateDetail` element of a QuickBooks `TaxCode` rate list. -/
structure TaxRateDetail where
  taxRateRef : String
  taxTypeApplicable : String := ""
  taxOrder : Option ℚ := none
  taxOnTaxOrder : Option ℚ := none
  deriving Repr, DecidableEq

/-- A QuickBooks `TaxCode` entity held in `self.tax_codes`
(`_preprocess_tax_codes`); either rate list key may be absent. -/
structure TaxCode where
  id : String
  salesTaxRateList : Option (List TaxRateDetail) := none
  purchaseTaxRateList : Option (List TaxRateDetail) := none
  deriving Repr, DecidableEq

/-- A line of the `TxnTaxDetail.TaxLine` array of a QuickBooks transaction. -/
structure TaxLine where
  amount : ℚ
  taxPercent : ℚ
  taxRateRef : String := ""
  deriving Repr, DecidableEq

/-- A built Sales Invoice item row (`_get_si_items`, source 822-863). -/
structure SiItem where
  itemCode : Option String := none
  itemName : Option String := none
  qty : ℚ := 0
  priceListRate : ℚ := 0
  uom : String := ""
  description : String := ""
  expenseAccount : Option String := none
  incomeAccount : Option String := none
  costCenter : Option String := none
  warehouse : Option String := none
  itemTaxRate : List (String × ℚ) := []
  marginType : Option String := none
  marginRateOrAmount : Option Int := none
  conversionFactor : ℚ := 1
  deriving Repr, DecidableEq

/-- A built tax charge row (`_get_taxes`, source 1841-1862). -/
structure TaxCharge where
  chargeType : String
  rowId : Option Nat := none
  accountHead : String
  description : String
  rate : ℚ
  costCenter : Option String := none
  deriving Repr, DecidableEq

/-- A POS payment row built by `_get_invoice_payments` (source 887-893). -/
structure SIPaymentRow where
  modeOfPayment : String
  account : String
  amount : ℚ
  deriving Repr, DecidableEq

/-- A persisted Sales Invoice.  The fields read back by `_save_payment`
(`name`, `customer`, `debit_to`, `grand_total`, `outstanding_amount`,
`conversion_rate`) are storage-owned columns; the rest mirror the
`invoice_dict` built in `_save_sales_invoice`. -/
structure SalesInvoice where
  name : String
  quickbooksId : String
  customer : String
  currency : String := ""
  conversionRate : ℚ := 1
  postingDate : String := ""
  dueDate : String := ""
  debitTo : String := ""
  grandTotal : ℚ := 0
  outstandingAmount : ℚ := 0
  items : List SiItem := []
  taxes : List TaxCharge := []
  payments : Option (List SIPaymentRow) := none
  isReturn : Bool := false
  isPos : Bool := false
  applyDiscountOn : Option String := none
  discountAmount : Option ℚ := none
  deriving Repr, DecidableEq

/-- A persisted Purchase Invoice (the columns `_save_bill_payment` reads). -/
structure PurchaseInvoice where
  name : String
  quickbooksId : String
  supplier : String
  creditTo : String := ""
  grandTotal : ℚ := 0
  outstandingAmount : ℚ := 0
  conversionRate : ℚ := 1
  deriving Repr, DecidableEq

/-- The persistent store owned by the frappe storage collaborator, restricted
to the one company being migrated, together with the migrator's own settings
fields (`default_cost_center`, `default_warehouse`, `default_shipping_account`,
`undeposited_funds_account`) and the in-memory `self.general_ledger` index
(entity type → transaction id → lines, built by `_fetch_general_ledger`). -/
structure DB where
  companyCurrency : String := ""
  defaultCostCenter : Option String := none
  defaultWarehouse : Option String := none
  defaultShippingAccount : Option String := none
  undepositedFundsAccount : Option String := none
  accounts : List Acct := []
  customers : List Customer := []
  items : List Item := []
  taxRates : List TaxRateEntity := []
  taxCodes : List TaxCode := []
  salesInvoices : List SalesInvoice := []
  purchaseInvoices : List PurchaseInvoice := []
  journalEntries : List JournalEntry := []
  generalLedger : List (String × List (String × List GLLine)) := []
  deriving Repr, DecidableEq

/-- `_get_account_name_by_id` (source 1926-1929): `frappe.get_all("Account",
filters={"quickbooks_id": id, "company": company})[0]["name"]`; the `[0]`
raises `IndexError` when no account matches. -/
def getAccountNameById (accounts : List Acct) (quickbooksId : String) : Except String String :=
  match accounts.find? (fun a => a.quickbooksId == some quickbooksId) with
  | some a => .ok a.name
  | none => .error "IndexError: no Account with quickbooks_id"

/-- `frappe.db.get_value("Account", name, "account_currency")`: returns the
column, or `None` when the row is missing or the column is null. -/
def accountCurrencyOf (accounts : List Acct) (name : String) : Option String :=
  (accounts.find? (fun a => a.name == name)).bind (fun a => a.accountCurrency)

/-- `frappe.get_all("Account", filters=[["account_type", "in", ["Payable",
"Receivable"]]], pluck="name")` (source 949, 1528). -/
def payableReceivableNames (accounts : List Acct) : List String :=
  (accounts.filter
    (fun a => a.accountType == some "Payable" || a.accountType == some "Receivable")).map
    (fun a => a.name)

/-- `frappe.get_all("Account", filters={"account_type": "Payable"}, pluck="name")`
(source 1776). -/
def payableNames (accounts : List Acct) : List String :=
  (accounts.filter (fun a => a.accountType == some "Payable")).map (fun a => a.name)

/-- `frappe.get_all("Account", filters={"account_type": "Receivable"}, pluck="name")`
(source 1783). -/
def receivableNames (accounts : List Acct) : List String :=
  (accounts.filter (fun a => a.accountType == some "Receivable")).map (fun a => a.name)

/-- `frappe.get_all("Account", filters={"account_type": "Tax", "tax_rate": p,
"company": company})[0]["name"]` (source 980-985, 1464-1468, 1833-1837);
`IndexError` when no tax account carries that rate. -/
def taxAccountName (accounts : List Acct) (taxPercent : ℚ) : Except String String :=
  match accounts.find?
      (fun a => a.accountType == some "Tax" && a.taxRate == some taxPercent) with
  | some a => .ok a.name
  | none => .error "IndexError: no Tax account with tax_rate"

/-- The multi-currency pattern repeated at source 938-944 (`_get_je_accounts`),
1229-1254 (`_save_payment`), 1412-1421 and 1445-1452 (`_save_purchase`) and
1495-1541 (`_save_deposit`): given the account currency (as returned by
`frappe.db.get_value`, hence `Option`), the transaction currency and the
transaction-level exchange rate, yield the pair
`(exchange rate written on the line, multiplier applied to the raw amount)`:
`(rate, 1)` when the currencies match, `(1, rate)` when they differ. -/
def currencyConv (accountCurrency : Option String) (txnCurrency : String)
    (exchangeRate : ℚ) : ℚ × ℚ :=
  if accountCurrency == some txnCurrency then (exchangeRate, 1) else (1, exchangeRate)

/-- The capping step `if line_amount > outstanding_amount: line_amount =
outstanding_amount` shared by `_save_payment` (source 1227-1228) and
`_save_bill_payment` (source 1317-1318). -/
def capOutstanding (lineAmount outstandingAmount : ℚ) : ℚ :=
  if lineAmount > outstandingAmount then outstandingAmount else lineAmount

/-- The Python `re.match(r"^(.*):", s)` used for party inference (source
956-958, 1535-1537, 1778-1789).  `.*` is greedy and `.` does not cross a
newline, so the regex captures everything before the LAST `:` of the first
line of `s`; when there is no such `:` the match fails.  `lastColonSplit l`
returns that capture, or `none` when the match fails. -/
def lastColonSplit : List Char → Option (List Char)
  | [] => none
  | c :: rest =>
      match lastColonSplit rest with
      | some r => some (c :: r)
      | none => if c == ':' then some [] else none

/-- Party-name stripping as the source performs it: replace the name by the
regex capture when `re.match(r"^(.*):", party)` succeeds, keep it otherwise. -/
def stripPartyChars (s : List Char) : List Char :=
  match lastColonSplit (s.takeWhile (fun c => c != '\n')) with
  | some r => r
  | none => s

/-- String-level wrapper of `stripPartyChars`. -/
def stripPartyName (s : String) : String := String.mk (stripPartyChars s.data)

/-- The claim/spec wording of party stripping ("stripping everything at and
after the FIRST `:` separator"), written from the spec's words for comparison
with the source's `stripPartyChars`. -/
def stripPartyCharsSpecFirstColon (s : List Char) : List Char :=
  if s.contains ':' then s.takeWhile (fun c => c != ':') else s

/-- `_get` (source 1912-1924) viewed through the sequence of HTTP statuses the
server returns to the successive requests.  Each 401 triggers
`_refresh_tokens` and a recursive retry; any other status is returned.  The
result pairs the final status with the number of refreshes performed; `none`
models exhausting the sequence (the recursion never returning). -/
def getStatus : List Nat → Option (Nat × Nat)
  | [] => none
  | s :: rest =>
      if s = 401 then (getStatus rest).map (fun p => (p.1, p.2 + 1))
      else some (s, 0)

/-! ## Journal/Invoice builder: `__save_journal_entry` (source 994-1027) -/

/-- Sum of `acc.get("debit_in_account_currency", 0) * acc.get("exchange_rate", 1)`
over the account lines of an entry. -/
def totalDebit (accounts : List AccountLine) : ℚ :=
  (accounts.map (fun a => a.debitInAccountCurrency.getD 0 * a.exchangeRate.getD 1)).sum

/-- Sum of `acc.get("credit_in_account_currency", 0) * acc.get("exchange_rate", 1)`
over the account lines of an entry. -/
def totalCredit (accounts : List AccountLine) : ℚ :=
  (accounts.map (fun a => a.creditInAccountCurrency.getD 0 * a.exchangeRate.getD 1)).sum

/-- Balance of a journal entry within the 2-decimal rounding tolerance:
`sum(debit_in_account_currency * exchange_rate)` equals
`sum(credit_in_account_currency * exchange_rate)` after rounding both to two
decimal places. -/
def balancedJE (accounts : List AccountLine) : Bool :=
  flt2 (totalDebit accounts) == flt2 (totalCredit accounts)

/-- Modelled from the spec: the validation that the storage collaborator
(frappe/ERPNext, outside this repository's sources) performs when
`__save_journal_entry` calls `je.insert()` / `je.submit()`.  Per spec section
4.6 the builder "does not verify balance before submission — imbalance surfaces
as a downstream validation failure from the storage collaborator", and section 8
fixes the tolerance at 2 decimal places; an entry failing this check raises,
is caught by the builder's `except` (source 1026-1027) and nothing is stored. -/
def storageAcceptsJE (accounts : List AccountLine) : Bool :=
  balancedJE accounts

/-- `frappe.db.exists({"doctype": "Journal Entry", "quickbooks_id": id,
"company": company})` (source 996-998). -/
def jeExists (db : DB) (quickbooksId : String) : Bool :=
  db.journalEntries.any (fun je => je.quickbooksId == quickbooksId)

/-- `__save_journal_entry` (source 994-1027): check the idempotency key, then
insert and submit the Journal Entry inside `try`/`except`; a validation
failure from the storage collaborator leaves the store unchanged.  The
document name is storage-assigned; it is modelled as the idempotency key. -/
def saveJournalEntryImpl (quickbooksId : String) (accounts : List AccountLine)
    (postingDate : String) (db : DB) : DB :=
  if jeExists db quickbooksId then db
  else if storageAcceptsJE accounts then
    { db with journalEntries := db.journalEntries ++
        [{ name := quickbooksId, quickbooksId := quickbooksId,
           postingDate := postingDate, accounts := accounts }] }
  else db

/-! ## `_save_journal_entry` (source 923-992) -/

/-- The `Entity` object of a `JournalEntryLineDetail` (source 950-955). -/
structure JEEntity where
  entityType : String
  entityRefName : String
  deriving Repr, DecidableEq

/-- One element of a QuickBooks `JournalEntry`'s `Line` array. -/
structure JournalEntryLine where
  detailType : String
  accountRef : String := ""
  postingType : String := ""
  entity : Option JEEntity := none
  description : Option String := none
  amount : ℚ := 0
  deriving Repr, DecidableEq

/-- A QuickBooks `JournalEntry` source record (the fields `_save_journal_entry`
reads; `CurrencyRef` and `ExchangeRate` are accessed directly at source 974). -/
structure QBJournalEntry where
  id : String
  currency : String
  exchangeRate : ℚ
  txnDate : String
  lines : List JournalEntryLine
  taxLines : Option (List TaxLine) := none
  deriving Repr, DecidableEq

/-- Conversion of one `JournalEntry` line inside `_get_je_accounts` (source
933-970).  Returns `none` for lines whose `DetailType` is not
`JournalEntryLineDetail`; errors model the exceptions the line can raise
(account resolution `IndexError` at 935-937, the `KeyError` of
`posting_type_field_mapping[posting_type]` at 967). -/
def jeLineAccount (accounts : List Acct) (defaultCostCenter : Option String)
    (transCurrency : String) (exchangeRate : ℚ) (line : JournalEntryLine) :
    Except String (Option AccountLine) :=
  if line.detailType == "JournalEntryLineDetail" then
    match getAccountNameById accounts line.accountRef with
    | .error e => .error e
    | .ok accountName =>
      let accountCurrency := accountCurrencyOf accounts accountName
      -- source 938-944
      let conv := currencyConv accountCurrency transCurrency exchangeRate
      let lineAmount := line.amount * conv.2
      -- source 946-958: party inference
      let party :=
        if (payableReceivableNames accounts).contains accountName then
          match line.entity with
          | some e =>
              let pt := if e.entityType == "Vendor" then some "Supplier"
                        else if e.entityType == "Customer" then some "Customer"
                        else none
              (pt, some (stripPartyName e.entityRefName))
          | none => (none, none)
        else ((none : Option String), (none : Option String))
      -- `party or None` / `party_type or None` at 963-964: "" becomes None
      let partyName := match party.2 with
        | some p => if p == "" then none else some p
        | none => none
      let base : AccountLine :=
        { account := accountName, partyType := party.1, party := partyName,
          exchangeRate := some conv.1,
          userRemark := some (line.description.getD ""),
          costCenter := defaultCostCenter }
      match line.postingType with
      | "Debit" => .ok (some { base with debitInAccountCurrency := some lineAmount })
      | "Credit" => .ok (some { base with creditInAccountCurrency := some lineAmount })
      | _ => .error "KeyError: posting_type_field_mapping"
  else .ok none

/-- `_get_je_accounts` (source 926-971): convert the `JournalEntry` lines to an
account-line list. -/
def jeBuildAccounts (accounts : List Acct) (defaultCostCenter : Option String)
    (lines : List JournalEntryLine) (transCurrency : String) (exchangeRate : ℚ) :
    Except String (List AccountLine) :=
  lines.foldlM (fun acc line => do
    match ← jeLineAccount accounts defaultCostCenter transCurrency exchangeRate line with
    | some a => pure (acc ++ [a])
    | none => pure acc) []

/-- The tax-line loop of `_save_journal_entry` (source 975-989): each non-zero
`TxnTaxDetail.TaxLine` becomes an extra debit posting on the Tax account whose
`tax_rate` matches the line's `TaxPercent`. -/
def jeAppendTaxAccounts (accounts : List Acct) (defaultCostCenter : Option String)
    (taxLines : Option (List TaxLine)) (acc : List AccountLine) :
    Except String (List AccountLine) :=
  match taxLines with
  | none => .ok acc
  | some ls =>
      ls.foldlM (fun acc line =>
        if line.amount != 0 then do
          let name ← taxAccountName accounts line.taxPercent
          pure (acc ++ [{ account := name,
                          debitInAccountCurrency := some line.amount,
                          costCenter := defaultCostCenter : AccountLine }])
        else pure acc) acc

/-- The full account-list construction of `_save_journal_entry` (source
974-989), which runs OUTSIDE any `try`/`except`. -/
def jeAccountsFull (accounts : List Acct) (defaultCostCenter : Option String)
    (journalEntry : QBJournalEntry) : Except String (List AccountLine) := do
  let acc ← jeBuildAccounts accounts defaultCostCenter journalEntry.lines
      journalEntry.currency journalEntry.exchangeRate
  jeAppendTaxAccounts accounts defaultCostCenter journalEntry.taxLines acc

/-- `_save_journal_entry` (source 923-992): build the account list (unprotected)
and hand it to `__save_journal_entry`.  An `.error` result models an exception
escaping the transformer. -/
def saveJournalEntry (db : DB) (journalEntry : QBJournalEntry) : Except String DB := do
  let quickbooksId := "Journal Entry - " ++ journalEntry.id
  let accounts ← jeAccountsFull db.accounts db.defaultCostCenter journalEntry
  pure (saveJournalEntryImpl quickbooksId accounts journalEntry.txnDate db)

/-- The `_save_entries` loop (source 405-416) specialised to the `JournalEntry`
entity: `entity_method_map[entity](entry)` is called per record with no
per-record `try`/`except` in the loop itself. -/
def saveEntriesJournalEntry (db : DB) (entries : List QBJournalEntry) :
    Except String DB :=
  entries.foldlM saveJournalEntry db

/-! ## `_save_sales_invoice` and its helpers (source 747-899, 1828-1890) -/

/-- One element of a sales-side transaction's `Line` array (the keys
`_get_si_items` and `_get_discount` read, flattened). -/
structure SiLine where
  detailType : String
  qty : ℚ := 0
  unitPrice : ℚ := 0
  itemRefValue : String := ""
  itemRefName : String := ""
  taxCodeRef : String := ""
  amount : ℚ := 0
  description : Option String := none
  discountAmount : Option ℚ := none
  deriving Repr, DecidableEq

/-- A QuickBooks sales-side source record (Invoice / CreditMemo / SalesReceipt /
RefundReceipt), flattened to the fields `_save_sales_invoice` reads. -/
structure QBInvoice where
  id : String
  currency : String
  exchangeRate : Option ℚ := none
  txnDate : String
  dueDate : Option String := none
  customerRef : String
  totalAmt : ℚ := 0
  depositToAccountRef : Option String := none
  applyTaxAfterDiscount : Bool := false
  txnTaxCodeRef : Option String := none
  taxLines : Option (List TaxLine) := none
  lines : List SiLine := []
  linkedTxnTypes : List String := []
  deriving Repr, DecidableEq

/-- The Python dict assignment `item_taxes[tax_head] = rate` (source 879). -/
def insertItemTax (taxes : List (String × ℚ)) (head : String) (rate : ℚ) :
    List (String × ℚ) :=
  if taxes.any (fun t => t.1 == head) then
    taxes.map (fun t => if t.1 == head then (head, rate) else t)
  else taxes ++ [(head, rate)]

/-- `self.tax_codes[id]` lookup. -/
def findTaxCode (taxCodes : List TaxCode) (id : String) : Option TaxCode :=
  taxCodes.find? (fun c => c.id == id)

/-- `self.tax_rates[id]` lookup. -/
def findTaxRate (taxRates : List TaxRateEntity) (id : String) : Option TaxRateEntity :=
  taxRates.find? (fun r => r.id == id)

/-- `_get_item_taxes` (source 866-880): the dict `{tax head account: rate}` for
the `TaxOnAmount` details of a tax code's rate lists; `self.tax_codes[tax_code]`
raises `KeyError` when the code is unknown. -/
def getItemTaxes (db : DB) (taxCode : String) : Except String (List (String × ℚ)) :=
  if taxCode != "NON" then do
    let tc ← match findTaxCode db.taxCodes taxCode with
      | some t => Except.ok t
      | none => Except.error "KeyError: tax code"
    let step := fun (acc : List (String × ℚ)) (detail : TaxRateDetail) =>
      if detail.taxTypeApplicable == "TaxOnAmount" then do
        let head ← getAccountNameById db.accounts ("TaxRate - " ++ detail.taxRateRef)
        let rate ← match findTaxRate db.taxRates detail.taxRateRef with
          | some r => Except.ok r
          | none => Except.error "KeyError: tax rate"
        pure (insertItemTax acc head rate.rateValue)
      else pure acc
    let acc ← (tc.salesTaxRateList.getD []).foldlM step []
    (tc.purchaseTaxRateList.getD []).foldlM step acc
  else .ok []

/-- The per-line tax-code choice of `_get_si_items` (source 802-808): use the
line's `TaxCodeRef` unless it is the `"TAX"` sentinel, in which case fall back
to the transaction-level `TxnTaxCodeRef` or `"NON"`. -/
def siLineTaxCode (invoice : QBInvoice) (line : SiLine) : String :=
  if line.taxCodeRef != "TAX" then line.taxCodeRef
  else match invoice.txnTaxCodeRef with
    | some v => v
    | none => "NON"

/-- One `SalesItemLineDetail` line of `_get_si_items` (source 809-854): either a
regular item row (looked up by display name in the Item table) or, for the
`SHIPPING_ITEM_ID` sentinel, a synthetic shipping charge. -/
def siSalesItem (db : DB) (invoice : QBInvoice) (line : SiLine) :
    Except String SiItem := do
  let taxCode := siLineTaxCode invoice line
  if line.itemRefValue != "SHIPPING_ITEM_ID" then do
    let item ← match db.items.find? (fun i => i.name == line.itemRefName) with
      | some i => Except.ok i
      | none => Except.error "IndexError: no Item with that name"
    let taxes ← getItemTaxes db taxCode
    pure { itemCode := some item.name, conversionFactor := 1, uom := item.stockUom,
           description := line.description.getD line.itemRefName,
           qty := line.qty, priceListRate := line.unitPrice,
           costCenter := db.defaultCostCenter, warehouse := db.defaultWarehouse,
           itemTaxRate := taxes }
  else do
    let expense ← getAccountNameById db.accounts ("TaxRate - " ++ line.taxCodeRef)
    let taxes ← getItemTaxes db taxCode
    pure { itemName := some "Shipping", conversionFactor := 1, uom := "Unit",
           expenseAccount := some expense, description := "Shipping",
           incomeAccount := db.defaultShippingAccount,
           qty := 1, priceListRate := line.amount,
           costCenter := db.defaultCostCenter, warehouse := db.defaultWarehouse,
           itemTaxRate := taxes }

/-- `_get_si_items` (source 796-864).  A `DescriptionOnly` line mutates the last
item (`items[-1].update`, raising `IndexError` on an empty list, `KeyError` when
it has no `Description`, `ValueError` when `int()` cannot parse the margin). -/
def getSiItems (db : DB) (invoice : QBInvoice) (isReturn : Bool) :
    Except String (List SiItem) :=
  invoice.lines.foldlM (fun items line =>
    if line.detailType == "SalesItemLineDetail" then
      if line.qty == 0 then pure items
      else do
        let item ← siSalesItem db invoice line
        let item := if isReturn then { item with qty := item.qty * (-1) } else item
        pure (items ++ [item])
    else if line.detailType == "DescriptionOnly" then
      match items.getLast? with
      | none => .error "IndexError: items[-1] on empty list"
      | some lastItem => do
          let desc ← match line.description with
            | some d => Except.ok d
            | none => Except.error "KeyError: Description"
          let n ← match ((desc.splitOn "%").headD "").toInt? with
            | some n => Except.ok n
            | none => Except.error "ValueError: invalid literal for int()"
          pure (items.dropLast ++
            [{ lastItem with
                marginType := some "Percentage",
                marginRateOrAmount := some n }])
    else pure items) []

/-- `_get_tax_type` (source 1865-1871): the `TaxTypeApplicable` of the first
`TaxRateDetail` whose rate reference matches, scanning sales then purchase
lists of every tax code; `None` when absent. -/
def getTaxType (taxCodes : List TaxCode) (taxRate : String) : Option String :=
  taxCodes.findSome? (fun tc =>
    ((tc.salesTaxRateList.getD []) ++ (tc.purchaseTaxRateList.getD [])).findSome?
      (fun d => if d.taxRateRef == taxRate then some d.taxTypeApplicable else none))

/-- Inner loop of `_get_parent_tax_rate` (source 1879-1880): successive
reassignment `parent = detail["TaxOnTaxOrder"]` for every matching detail (the
LAST match wins); a matching detail without the key raises `KeyError`. -/
def lastParentOf : List TaxRateDetail → String → Option ℚ → Except String (Option ℚ)
  | [], _, parent => .ok parent
  | d :: rest, taxRate, parent =>
      if d.taxRateRef == taxRate then
        match d.taxOnTaxOrder with
        | none => .error "KeyError: TaxOnTaxOrder"
        | some v => lastParentOf rest taxRate (some v)
      else lastParentOf rest taxRate parent

/-- Second loop of `_get_parent_tax_rate` (source 1882-1884): first detail whose
`TaxOrder` equals the parent order; a detail without the key raises `KeyError`
before the comparison. -/
def findByTaxOrder : List TaxRateDetail → ℚ → Except String (Option String)
  | [], _ => .ok none
  | d :: rest, v =>
      match d.taxOrder with
      | none => .error "KeyError: TaxOrder"
      | some o => if o == v then .ok (some d.taxRateRef) else findByTaxOrder rest v

/-- `_get_parent_tax_rate` (source 1873-1884) over the flattened sequence of
rate lists; `parent` persists across lists, and `if parent:` is Python
truthiness (a 0 order is falsy). -/
def parentTaxRateInLists :
    List (List TaxRateDetail) → String → Option ℚ → Except String (Option String)
  | [], _, _ => .ok none
  | l :: rest, taxRate, parent => do
      let parent ← lastParentOf l taxRate parent
      match parent with
      | some v =>
          if v != 0 then do
            match ← findByTaxOrder l v with
            | some r => pure (some r)
            | none => parentTaxRateInLists rest taxRate parent
          else parentTaxRateInLists rest taxRate parent
      | none => parentTaxRateInLists rest taxRate parent

/-- The rate lists present on a tax code, in the iteration order of source 1876. -/
def ratesLists (tc : TaxCode) : List (List TaxRateDetail) :=
  (match tc.salesTaxRateList with | some l => [l] | none => []) ++
  (match tc.purchaseTaxRateList with | some l => [l] | none => [])

/-- `_get_parent_tax_rate` (source 1873-1884). -/
def getParentTaxRate (taxCodes : List TaxCode) (taxRate : String) :
    Except String (Option String) :=
  parentTaxRateInLists ((taxCodes.map ratesLists).flatten) taxRate none

/-- `_get_parent_row_id` (source 1886-1890): resolve the parent rate's tax-head
account (an f-string turns a missing parent into the literal `"None"`) and
return the 1-based index of the first already-emitted tax row using it. -/
def getParentRowId (accounts : List Acct) (taxRate : Option String)
    (taxes : List TaxCharge) : Except String (Option Nat) := do
  let key := "TaxRate - " ++ (match taxRate with | some r => r | none => "None")
  let taxAccount ← getAccountNameById accounts key
  pure ((taxes.findIdx? (fun t => t.accountHead == taxAccount)).map (fun i => i + 1))

/-- `_get_taxes` (source 1828-1863) on the transaction's `TxnTaxDetail.TaxLine`
array (`[]` when the key chain is absent, source 1830-1831). -/
def getTaxes (db : DB) (taxLines : Option (List TaxLine)) :
    Except String (List TaxCharge) :=
  match taxLines with
  | none => .ok []
  | some ls =>
      ls.foldlM (fun taxes line => do
        let accountHead ← taxAccountName db.accounts line.taxPercent
        let taxType := getTaxType db.taxCodes line.taxRateRef
        if taxType == some "TaxOnAmount" then
          pure (taxes ++
            [{ chargeType := "On Net Total",
               accountHead := accountHead,
               description := accountHead,
               costCenter := db.defaultCostCenter,
               rate := line.taxPercent : TaxCharge }])
        else do
          let parent ← getParentTaxRate db.taxCodes line.taxRateRef
          let rowId ← getParentRowId db.accounts parent taxes
          pure (taxes ++
            [{ chargeType := "On Previous Row Amount",
               rowId := rowId,
               accountHead := accountHead,
               description := accountHead,
               costCenter := db.defaultCostCenter,
               rate := line.taxPercent : TaxCharge }])) []

/-- `_get_invoice_payments` (source 882-893): a POS invoice gets a Cash payment
row for the (negated, if return) total, debited to the `DepositToAccountRef`
account (`KeyError` when absent); a non-POS invoice gets `None`. -/
def getInvoicePayments (db : DB) (invoice : QBInvoice) (isReturn isPos : Bool) :
    Except String (Option (List SIPaymentRow)) :=
  if isPos then do
    let amount := if isReturn then -invoice.totalAmt else invoice.totalAmt
    let ref ← match invoice.depositToAccountRef with
      | some r => Except.ok r
      | none => Except.error "KeyError: DepositToAccountRef"
    let account ← getAccountNameById db.accounts ref
    pure (some [{ modeOfPayment := "Cash", account := account, amount := amount }])
  else pure none

/-- `_get_discount` (source 895-898): first `DiscountLineDetail` line carrying
an `Amount`. -/
def getDiscount (lines : List SiLine) : Option SiLine :=
  lines.find? (fun l => l.detailType == "DiscountLineDetail" && l.discountAmount.isSome)

/-- `frappe.db.exists({"doctype": "Sales Invoice", "quickbooks_id": id,
"company": company})` (source 749-751). -/
def siExists (db : DB) (quickbooksId : String) : Bool :=
  db.salesInvoices.any (fun si => si.quickbooksId == quickbooksId)

/-- Modelled from the spec: the columns of the persisted Sales Invoice that are
owned by the storage collaborator rather than set by `_save_sales_invoice` —
the document name (modelled as the idempotency key), `debit_to` (the
receivable account in the invoice currency, as assigned to customers in
`_save_customer`), and the totals (spec section 8: total = sum of qty × rate
item lines, a POS payment reduces the outstanding amount). -/
def storedSalesInvoice (db : DB) (invoice : QBInvoice) (quickbooksId customer : String)
    (items : List SiItem) (taxes : List TaxCharge)
    (payments : Option (List SIPaymentRow)) (isReturn isPos : Bool)
    (applyDiscountOn : Option String) (discountAmount : Option ℚ) : SalesInvoice :=
  let grandTotal := (items.map (fun i => i.qty * i.priceListRate)).sum
  let paid := match payments with
    | some ps => (ps.map (fun p => p.amount)).sum
    | none => 0
  { name := quickbooksId, quickbooksId := quickbooksId, customer := customer,
    currency := invoice.currency,
    conversionRate := invoice.exchangeRate.getD 1,
    postingDate := invoice.txnDate,
    dueDate := invoice.dueDate.getD invoice.txnDate,
    debitTo := ((db.accounts.find? (fun a =>
        a.accountType == some "Receivable" &&
        a.accountCurrency == some invoice.currency)).map (fun a => a.name)).getD "",
    grandTotal := grandTotal, outstandingAmount := grandTotal - paid,
    items := items, taxes := taxes, payments := payments,
    isReturn := isReturn, isPos := isPos,
    applyDiscountOn := applyDiscountOn, discountAmount := discountAmount }

/-- The customer lookup of `_save_sales_invoice` (source 764-770):
`frappe.get_all("Customer", filters={"quickbooks_id": ..., "company":
...})[0]["name"]`, raising `IndexError` when absent. -/
def customerName (db : DB) (invoice : QBInvoice) : Except String String :=
  match db.customers.find? (fun c => c.quickbooksId == invoice.customerRef) with
  | some c => .ok c.name
  | none => .error "IndexError: no Customer with quickbooks_id"

/-- The `invoice_dict` construction of `_save_sales_invoice` (source 752-788):
customer resolution, item, tax, payment and discount building. -/
def buildSalesInvoice (db : DB) (invoice : QBInvoice) (quickbooksId : String)
    (isReturn isPos : Bool) : Except String SalesInvoice := do
  let customer ← customerName db invoice
  let items ← getSiItems db invoice isReturn
  let taxes ← getTaxes db invoice.taxLines
  let payments ← getInvoicePayments db invoice isReturn isPos
  let discount := getDiscount invoice.lines
  let applyDiscountOn := match discount with
    | some _ => some (if invoice.applyTaxAfterDiscount then "Net Total" else "Grand Total")
    | none => none
  let discountAmount := match discount with
    | some d => d.discountAmount
    | none => none
  pure (storedSalesInvoice db invoice quickbooksId customer items taxes payments
    isReturn isPos applyDiscountOn discountAmount)

/-- `_save_sales_invoice` (source 747-794).  The idempotency check precedes any
work.  When building the document raises, the `except` block itself crashes
(it reads the unbound `invoice_doc`, source 794), so the exception escapes —
modelled as `.error` — with the store unchanged; a successful build is
inserted and submitted. -/
def saveSalesInvoice (db : DB) (invoice : QBInvoice) (quickbooksId : String)
    (isReturn isPos : Bool) : Except String DB :=
  if siExists db quickbooksId then .ok db
  else
    match buildSalesInvoice db invoice quickbooksId isReturn isPos with
    | .error e => .error e
    | .ok row => .ok { db with salesInvoices := db.salesInvoices ++ [row] }

/-! ## `_save_payment` (source 1151-1274) and `_save_bill_payment` (1276-1405) -/

/-- One element of a payment line's `LinkedTxn` array. -/
structure LinkedTxn where
  txnType : String
  txnId : String
  deriving Repr, DecidableEq

/-- A `Line` element of a Payment or BillPayment record. -/
structure PaymentLine where
  amount : ℚ
  linkedTxn : List LinkedTxn := []
  deriving Repr, DecidableEq

/-- A QuickBooks `Payment` source record. -/
structure Payment where
  id : String
  depositToAccountRef : Option String := none
  currency : String
  exchangeRate : ℚ
  totalAmt : ℚ
  txnDate : String
  lines : List PaymentLine := []
  deriving Repr, DecidableEq

/-- A QuickBooks `BillPayment` source record.  `checkBankAccountRef` models
`CheckPayment.BankAccountRef.value` (absent when `"BankAccountRef" not in
bill_payment["CheckPayment"]`, source 1373) and `ccAccountRef` models
`CreditCardPayment.CCAccountRef.value`. -/
structure BillPayment where
  id : String
  payType : String
  checkBankAccountRef : Option String := none
  ccAccountRef : Option String := none
  currency : String
  exchangeRate : ℚ
  totalAmt : ℚ
  txnDate : String
  lines : List PaymentLine := []
  deriving Repr, DecidableEq

/-- The reference variables (`reference_type`, `reference_name`, `party`,
`party_account`) that the payment loops assign inside their resolution
branches; in Python they leak from one loop iteration to the next, so the
fold threads them explicitly. -/
structure PaymentLineCtx where
  referenceType : String
  referenceName : String
  party : String
  partyAccount : String
  deriving Repr, DecidableEq

/-- Sales Invoice table lookup by `quickbooks_id`. -/
def siLookup (db : DB) (quickbooksId : String) : Option SalesInvoice :=
  db.salesInvoices.find? (fun si => si.quickbooksId == quickbooksId)

/-- Purchase Invoice table lookup by `quickbooks_id`. -/
def piLookup (db : DB) (quickbooksId : String) : Option PurchaseInvoice :=
  db.purchaseInvoices.find? (fun pi => pi.quickbooksId == quickbooksId)

/-- Journal Entry table lookup by `quickbooks_id`. -/
def jeLookup (db : DB) (quickbooksId : String) : Option JournalEntry :=
  db.journalEntries.find? (fun je => je.quickbooksId == quickbooksId)

/-- `self.general_ledger[entityType]` lookup (`KeyError` when absent). -/
def glTypeLookup (db : DB) (entityType : String) :
    Except String (List (String × List GLLine)) :=
  match db.generalLedger.find? (fun p => p.1 == entityType) with
  | some p => .ok p.2
  | none => .error "KeyError: general_ledger entity type"

/-- `gl[txnId]["lines"]` lookup (`KeyError` when absent). -/
def glIdLookup (gl : List (String × List GLLine)) (txnId : String) :
    Except String (List GLLine) :=
  match gl.find? (fun p => p.1 == txnId) with
  | some p => .ok p.2
  | none => .error "KeyError: transaction id not in general_ledger group"

/-- The loop body of `_save_payment` for one payment line (source 1163-1245).
State: accumulated account lines, `credit_amt`, the leaked reference variables
and the leaked `payment_currency`.  Non-`Invoice` linked transactions fall
through the `if` and contribute nothing. -/
def paymentLineStep (db : DB) (payment : Payment)
    (st : List AccountLine × ℚ × Option PaymentLineCtx × Option String)
    (line : PaymentLine) :
    Except String (List AccountLine × ℚ × Option PaymentLineCtx × Option String) := do
  let (accounts, creditAmt, ctx, _payCur) := st
  let linked ← match line.linkedTxn.head? with
    | some l => Except.ok l
    | none => Except.error "IndexError: LinkedTxn[0]"
  if linked.txnType == "Invoice" then do
    let siQuickbooksId := "Invoice - " ++ linked.txnId
    -- source 1168-1187: Sales Invoice resolution
    let ctx := match siLookup db siQuickbooksId with
      | some si => some { referenceType := "Sales Invoice", referenceName := si.name,
                          party := si.customer, partyAccount := si.debitTo }
      | none => ctx
    -- source 1189-1211: Journal Entry resolution (overrides when both exist)
    let ctx ← match jeLookup db siQuickbooksId with
      | some je =>
          match je.accounts.find? (fun a => a.partyType == some "Customer") with
          | some accLine =>
              Except.ok (some
                { referenceType := "Journal Entry",
                  referenceName := je.name,
                  party := accLine.party.getD "",
                  partyAccount := accLine.account : PaymentLineCtx })
          | none => Except.error "StopIteration: no Customer line"
      | none => Except.ok ctx
    let c ← match ctx with
      | some c => Except.ok c
      | none => Except.error "UnboundLocalError: reference_type"
    -- source 1212-1228: amounts, outstanding lookup, capping
    let lineAmount := line.amount
    let outstanding ← match siLookup db siQuickbooksId with
      | some si => Except.ok si.outstandingAmount
      | none => Except.error "IndexError: outstanding_amount"
    let conversionRate ← match siLookup db siQuickbooksId with
      | some si => Except.ok si.conversionRate
      | none => Except.error "IndexError: conversion_rate"
    let lineAmount := capOutstanding lineAmount outstanding
    -- source 1229-1245: currencies and the credit line
    let paymentCurrency := payment.currency
    let accountCurrency := accountCurrencyOf db.accounts c.partyAccount
    let conv := currencyConv accountCurrency paymentCurrency payment.exchangeRate
    let creditAmt := creditAmt + flt2 (lineAmount * conversionRate)
    let acctLine : AccountLine :=
      { partyType := some "Customer", party := some c.party,
        referenceType := some c.referenceType, referenceName := some c.referenceName,
        account := c.partyAccount,
        exchangeRate := some conv.1,
        creditInAccountCurrency := some (flt2 (lineAmount * conv.2)),
        costCenter := db.defaultCostCenter }
    pure (accounts ++ [acctLine], creditAmt, ctx, some paymentCurrency)
  else
    pure st

/-- The body of `_save_payment` after the `DepositToAccountRef` guard (source
1161-1272). -/
def savePaymentBody (db : DB) (payment : Payment) (depositRef : String) :
    Except String DB := do
  let quickbooksId := "Payment - " ++ payment.id
  let (accounts, _creditAmt, _ctx, payCur) ←
    payment.lines.foldlM (paymentLineStep db payment) ([], 0, none, none)
  -- source 1247-1257: the deposit-to debit line
  let depositAccount ← getAccountNameById db.accounts depositRef
  let accountCurrency := accountCurrencyOf db.accounts depositAccount
  let paymentCurrency ← match payCur with
    | some c => Except.ok c
    | none => Except.error "UnboundLocalError: payment_currency"
  let conv := currencyConv accountCurrency paymentCurrency payment.exchangeRate
  let accounts := accounts ++
    [{ account := depositAccount,
       debitInAccountCurrency := some (flt2 (payment.totalAmt * conv.2)),
       exchangeRate := some conv.1,
       costCenter := db.defaultCostCenter : AccountLine }]
  -- source 1258-1269: Exchange Gain or Loss lines from the GL report
  let glPayment ← glTypeLookup db "Payment"
  let glLines ← glIdLookup glPayment payment.id
  let accounts ← glLines.foldlM (fun acc line =>
    if line.account == "Exchange Gain or Loss - QB - NX" then do
      let name ← getAccountNameById db.accounts "95"
      pure (acc ++
        [{ account := name,
           debitInAccountCurrency := some (flt2 line.debtHomeAmt),
           creditInAccountCurrency := some (flt2 line.creditHomeAmt),
           costCenter := db.defaultCostCenter,
           userRemark := some "Rounding adjustment to balance debit/credit" : AccountLine }])
    else pure acc) accounts
  pure (saveJournalEntryImpl quickbooksId accounts payment.txnDate db)

/-- `_save_payment` (source 1151-1274).  A record without `DepositToAccountRef`
returns immediately (source 1157-1158); every exception in the body is caught
by the `except` (source 1273-1274, whose logging cannot itself crash because
`accounts` is bound first), leaving the store unchanged. -/
def savePayment (db : DB) (payment : Payment) : DB :=
  match payment.depositToAccountRef with
  | none => db
  | some depositRef =>
      match savePaymentBody db payment depositRef with
      | .ok db2 => db2
      | .error _ => db

/-- The loop body of `_save_bill_payment` for one line (source 1282-1370):
a `Bill` linked transaction resolves a Purchase Invoice and caps the amount at
its outstanding amount; any other type resolves a Journal Entry by
`"<TxnType> - <TxnId>"`. -/
def billPaymentLineStep (db : DB) (billPayment : BillPayment)
    (st : List AccountLine × ℚ × Option PaymentLineCtx) (line : PaymentLine) :
    Except String (List AccountLine × ℚ × Option PaymentLineCtx) := do
  let (accounts, debitAmt, ctx) := st
  let linked ← match line.linkedTxn.head? with
    | some l => Except.ok l
    | none => Except.error "IndexError: LinkedTxn[0]"
  if linked.txnType == "Bill" then do
    let piQuickbooksId := "Bill - " ++ linked.txnId
    -- source 1286-1306
    let ctx := match piLookup db piQuickbooksId with
      | some pi => some { referenceType := "Purchase Invoice", referenceName := pi.name,
                          party := pi.supplier, partyAccount := pi.creditTo }
      | none => ctx
    let c ← match ctx with
      | some c => Except.ok c
      | none => Except.error "UnboundLocalError: party_account"
    -- source 1307-1318
    let accountCurrency := accountCurrencyOf db.accounts c.partyAccount
    let outstanding ← match piLookup db piQuickbooksId with
      | some pi => Except.ok pi.outstandingAmount
      | none => Except.error "IndexError: outstanding_amount"
    let lineAmount := line.amount
    -- source 1316: `frappe.get_value(...) or 1` (None and a zero rate are falsy)
    let conversionRate := match piLookup db piQuickbooksId with
      | some pi => if pi.conversionRate == 0 then 1 else pi.conversionRate
      | none => 1
    let lineAmount := capOutstanding lineAmount outstanding
    -- source 1319-1334
    let lineExchangeRate :=
      if accountCurrency != some billPayment.currency then conversionRate else 1
    let debitAmt := debitAmt + flt2 (lineAmount * conversionRate)
    pure (accounts ++
      [{ partyType := some "Supplier", party := some c.party,
         referenceType := some c.referenceType, referenceName := some c.referenceName,
         account := c.partyAccount,
         debitInAccountCurrency := some (flt2 (lineAmount * lineExchangeRate)),
         costCenter := db.defaultCostCenter : AccountLine }], debitAmt, some c)
  else do
    -- source 1335-1370
    let jeQuickbooksId := linked.txnType ++ " - " ++ linked.txnId
    let ctx ← match jeLookup db jeQuickbooksId with
      | some je =>
          match je.accounts.find? (fun a => a.partyType == some "Supplier") with
          | some accLine =>
              Except.ok (some
                { referenceType := "Journal Entry",
                  referenceName := je.name,
                  party := accLine.party.getD "",
                  partyAccount := accLine.account : PaymentLineCtx })
          | none => Except.error "StopIteration: no Supplier line"
      | none => Except.ok ctx
    let c ← match ctx with
      | some c => Except.ok c
      | none => Except.error "UnboundLocalError: reference_type"
    let lineAmount := line.amount
    pure (accounts ++
      [{ partyType := some "Supplier", party := some c.party,
         referenceType := some c.referenceType, referenceName := some c.referenceName,
         account := c.partyAccount,
         debitInAccountCurrency := some lineAmount,
         costCenter := db.defaultCostCenter : AccountLine }], debitAmt + lineAmount, ctx)

/-- The `PayType` dispatch of `_save_bill_payment` (source 1372-1375): `"Check"`
uses the check's bank account reference (possibly `None`), `"CreditCard"` reads
`CreditCardPayment.CCAccountRef` (`KeyError` when absent), and any other value
leaves `bank_account_id` unbound, raising at its first use (source 1377). -/
def billPaymentBankAccountId (billPayment : BillPayment) : Except String (Option String) :=
  if billPayment.payType == "Check" then .ok billPayment.checkBankAccountRef
  else if billPayment.payType == "CreditCard" then
    match billPayment.ccAccountRef with
    | some v => .ok (some v)
    | none => .error "KeyError: CCAccountRef"
  else .error "UnboundLocalError: bank_account_id"

/-- The body of `_save_bill_payment` (source 1278-1403). -/
def saveBillPaymentBody (db : DB) (billPayment : BillPayment) : Except String DB := do
  let quickbooksId := "BillPayment - " ++ billPayment.id
  let (accounts, _debitAmt, _ctx) ←
    billPayment.lines.foldlM (billPaymentLineStep db billPayment) ([], 0, none)
  let bankAccountId ← billPaymentBankAccountId billPayment
  let bankAccountId ← match bankAccountId with
    | some v => Except.ok v
    | none => Except.error "IndexError: no Account with quickbooks_id None"
  let bankAccount ← getAccountNameById db.accounts bankAccountId
  -- source 1378-1388: the bank/card credit line (no exchange_rate key is set)
  let accountCurrency := accountCurrencyOf db.accounts bankAccount
  let exchangeRate :=
    if accountCurrency != some billPayment.currency then billPayment.exchangeRate else 1
  let accounts := accounts ++
    [{ account := bankAccount,
       creditInAccountCurrency := some (flt2 (billPayment.totalAmt * exchangeRate)),
       costCenter := db.defaultCostCenter : AccountLine }]
  -- source 1389-1400: Exchange Gain or Loss lines (plain flt here, no rounding)
  let gl ← glTypeLookup db "Bill Payment (Cheque)"
  let glLines ← glIdLookup gl billPayment.id
  let accounts ← glLines.foldlM (fun acc line =>
    if line.account == "Exchange Gain or Loss - QB - NX" then do
      let name ← getAccountNameById db.accounts "95"
      pure (acc ++
        [{ account := name,
           debitInAccountCurrency := some line.debtHomeAmt,
           creditInAccountCurrency := some line.creditHomeAmt,
           costCenter := db.defaultCostCenter,
           userRemark := some "Rounding adjustment to balance debit/credit" : AccountLine }])
    else pure acc) accounts
  pure (saveJournalEntryImpl quickbooksId accounts billPayment.txnDate db)

/-- `_save_bill_payment` (source 1276-1405): the whole body is wrapped in
`try`/`except` (`accounts` is bound before any failing step, so the logging in
the `except` cannot itself crash); any exception leaves the store unchanged. -/
def saveBillPayment (db : DB) (billPayment : BillPayment) : DB :=
  match saveBillPaymentBody db billPayment with
  | .ok db2 => db2
  | .error _ => db

/-! ## `_save_purchase` (source 1407-1488) -/

/-- A `Line` element of a QuickBooks `Purchase` record. -/
structure PurchaseLine where
  detailType : String
  accountRef : String := ""
  itemRef : String := ""
  amount : ℚ := 0
  description : Option String := none
  deriving Repr, DecidableEq

/-- A QuickBooks `Purchase` source record. -/
structure Purchase where
  id : String
  accountRef : String
  currency : String
  exchangeRate : ℚ
  totalAmt : ℚ
  txnDate : String
  privateNote : Option String := none
  credit : Bool := false
  lines : List PurchaseLine := []
  taxLines : Option (List TaxLine) := none
  deriving Repr, DecidableEq

/-- The debit/credit flip applied when `purchase["Credit"]` is set (source
1475-1482): a refund swaps each line's debit and credit keys. -/
def flipDebitCredit (a : AccountLine) : AccountLine :=
  match a.debitInAccountCurrency with
  | some d => { a with creditInAccountCurrency := some d, debitInAccountCurrency := none }
  | none =>
      { a with
        debitInAccountCurrency := a.creditInAccountCurrency,
        creditInAccountCurrency := none }

/-- The expense-line loop of `_save_purchase` (source 1428-1456).  The `account`
variable is only (re)assigned by the two known `DetailType` branches and leaks
across iterations, so the fold threads it (`none` models it being unbound). -/
def purchaseLinesStep (db : DB) (purchase : Purchase)
    (st : List AccountLine × Option String) (line : PurchaseLine) :
    Except String (List AccountLine × Option String) := do
  let (acc, prevAccount) := st
  let account ←
    if line.detailType == "AccountBasedExpenseLineDetail" then
      getAccountNameById db.accounts line.accountRef
    else if line.detailType == "ItemBasedExpenseLineDetail" then do
      let item ← match db.items.find? (fun i => i.quickbooksId == some line.itemRef) with
        | some i => Except.ok i
        | none => Except.error "DoesNotExistError: Item"
      -- `.item_defaults[0].expense_account`; a missing default expense account
      -- yields an unusable None reference, which the storage collaborator
      -- rejects at submission — modelled as the record's failure point.
      match item.expenseAccount with
      | some a => Except.ok a
      | none => Except.error "expense account not set on item defaults"
    else
      match prevAccount with
      | some a => Except.ok a
      | none => Except.error "UnboundLocalError: account"
  let accountCurrency := accountCurrencyOf db.accounts account
  let conv := currencyConv accountCurrency purchase.currency purchase.exchangeRate
  if line.amount != 0 then
    pure (acc ++
      [{ account := account,
         exchangeRate := some conv.1,
         debitInAccountCurrency := some (line.amount * conv.2),
         costCenter := db.defaultCostCenter,
         userRemark := some (line.description.getD "") : AccountLine }], some account)
  else pure (acc, some account)

/-- `_save_purchase` (source 1407-1488): credit the paying account for the
total, debit each expense line and each non-zero tax line, and flip every
pairing when the record is a refund (`Credit` flag).  A failure before the
`accounts` list is bound (source 1411-1417) crashes the `except` block itself
(it logs the unbound `accounts`, source 1488) and escapes — modelled as
`.error`; later failures are caught, leaving the store unchanged. -/
def savePurchase (db : DB) (purchase : Purchase) : Except String DB := do
  let quickbooksId := "Purchase - " ++ purchase.id
  let accountName ← getAccountNameById db.accounts purchase.accountRef
  let accountCurrency := accountCurrencyOf db.accounts accountName
  let conv := currencyConv accountCurrency purchase.currency purchase.exchangeRate
  -- source 1417-1425: the credit line for the paying account
  let first : AccountLine :=
    { account := accountName,
      exchangeRate := some conv.1,
      creditInAccountCurrency := some (purchase.totalAmt * conv.2),
      costCenter := db.defaultCostCenter,
      userRemark := some (purchase.privateNote.getD "") }
  let body : Except String DB := do
    let (accounts, _) ← purchase.lines.foldlM (purchaseLinesStep db purchase) ([first], none)
    -- source 1459-1472: debit tax accounts
    let accounts ← match purchase.taxLines with
      | none => Except.ok accounts
      | some ls => ls.foldlM (fun acc line =>
          if line.amount != 0 then do
            let name ← taxAccountName db.accounts line.taxPercent
            pure (acc ++
              [{ account := name,
                 debitInAccountCurrency := some (line.amount * purchase.exchangeRate),
                 costCenter := db.defaultCostCenter : AccountLine }])
          else pure acc) accounts
    let accounts := if purchase.credit then accounts.map flipDebitCredit else accounts
    pure (saveJournalEntryImpl quickbooksId accounts purchase.txnDate db)
  match body with
  | .ok db2 => pure db2
  | .error _ => pure db

/-! ## `_save_deposit` (source 1490-1563) -/

/-- The `Entity` object of a `DepositLineDetail`.  The source reads three
distinct keys: lowercase `"type"` (source 1530), capitalised `"Type"` (source
1532) and lowercase `"name"` (source 1534); each raises `KeyError` when
absent. -/
structure DepositEntity where
  typeKey : Option String := none
  typeKeyCap : Option String := none
  nameKey : Option String := none
  deriving Repr, DecidableEq

/-- A `Line` element of a QuickBooks `Deposit` record. -/
structure DepositLine where
  hasLinkedTxn : Bool := false
  amount : ℚ := 0
  accountRef : String := ""
  entity : Option DepositEntity := none
  description : Option String := none
  deriving Repr, DecidableEq

/-- A cash-back sub-object of a Deposit. -/
structure CashBack where
  accountRef : String
  amount : ℚ
  deriving Repr, DecidableEq

/-- A QuickBooks `Deposit` source record. -/
structure Deposit where
  id : String
  depositToAccountRef : String
  currency : String
  exchangeRate : ℚ
  totalAmt : ℚ
  txnDate : String
  privateNote : Option String := none
  lines : List DepositLine := []
  cashBack : Option CashBack := none
  deriving Repr, DecidableEq

/-- Party inference for one deposit detail line (source 1526-1537). -/
def depositLineParty (db : DB) (accountName : String) (line : DepositLine) :
    Except String (Option String × Option String) :=
  if (payableReceivableNames db.accounts).contains accountName then
    match line.entity with
    | some e => do
        let tLower ← match e.typeKey with
          | some t => Except.ok t
          | none => Except.error "KeyError: type"
        let partyType ←
          if tLower.toUpper == "VENDOR" then pure (some "Supplier")
          else do
            let tCap ← match e.typeKeyCap with
              | some t => Except.ok t
              | none => Except.error "KeyError: Type"
            if tCap.toUpper == "CUSTOMER" then pure (some "Customer")
            else pure (none : Option String)
        let name ← match e.nameKey with
          | some n => Except.ok n
          | none => Except.error "KeyError: name"
        pure (partyType, some (stripPartyName name))
    | none => .ok (none, none)
  else .ok (none, none)

/-- The detail-line loop of `_save_deposit` (source 1511-1548): a line with a
`LinkedTxn` credits the undeposited-funds account, any other line credits its
resolved account with party inference and currency conversion. -/
def depositLineAccount (db : DB) (deposit : Deposit) (line : DepositLine) :
    Except String AccountLine :=
  if line.hasLinkedTxn then
    .ok { account := db.undepositedFundsAccount.getD "",
          creditInAccountCurrency := some line.amount,
          costCenter := db.defaultCostCenter }
  else do
    let accountName ← getAccountNameById db.accounts line.accountRef
    let accountCurrency := accountCurrencyOf db.accounts accountName
    let conv := currencyConv accountCurrency deposit.currency deposit.exchangeRate
    let party ← depositLineParty db accountName line
    pure { account := accountName,
           exchangeRate := some conv.1,
           creditInAccountCurrency := some (line.amount * conv.2),
           partyType := party.1, party := party.2,
           costCenter := db.defaultCostCenter,
           userRemark := some (line.description.getD "") }

/-- `_save_deposit` (source 1490-1563): debit the deposit-to account for the
total, credit each detail line, debit an optional cash-back line.  A failure
resolving the deposit-to account (source 1494, before `accounts` is bound)
crashes the `except` block's own logging and escapes — modelled as `.error`;
later failures are caught, leaving the store unchanged. -/
def saveDeposit (db : DB) (deposit : Deposit) : Except String DB := do
  let quickbooksId := "Deposit - " ++ deposit.id
  let accountName ← getAccountNameById db.accounts deposit.depositToAccountRef
  let accountCurrency := accountCurrencyOf db.accounts accountName
  let conv := currencyConv accountCurrency deposit.currency deposit.exchangeRate
  let first : AccountLine :=
    { account := accountName,
      exchangeRate := some conv.1,
      debitInAccountCurrency := some (deposit.totalAmt * conv.2),
      costCenter := db.defaultCostCenter,
      userRemark := some (deposit.privateNote.getD "") }
  let body : Except String DB := do
    let accounts ← deposit.lines.foldlM (fun acc line => do
      let a ← depositLineAccount db deposit line
      pure (acc ++ [a])) [first]
    let accounts ← match deposit.cashBack with
      | none => Except.ok accounts
      | some cb => do
          let name ← getAccountNameById db.accounts cb.accountRef
          pure (accounts ++
            [{ account := name,
               debitInAccountCurrency := some cb.amount,
               costCenter := db.defaultCostCenter : AccountLine }])
    pure (saveJournalEntryImpl quickbooksId accounts deposit.txnDate db)
  match body with
  | .ok db2 => pure db2
  | .error _ => pure db

/-! ## `__save_ledger_entry_as_je` (source 1648-1826) -/

/-- The hard-coded `accounts_map` rename table of `__save_ledger_entry_as_je`
(source 1649-1763). -/
def accountsMap : List (String × String) := [
  ("A. Majid Rumani Loan Account - QB - NX", "Short Term Investment:A. Majid Rumani Loan Account - NX"),
  ("Majeed Bhai Loan Account - QB - NX", "Short Term Investment:Majeed Bhai Loan Account - NX"),
  ("Nasir Rais - Short Term Borrowings - QB - NX", "Nasir Rais - Short Term Borrowings - NX"),
  ("Ankit Sinha - Short Term Borrowings - QB - NX", "Ankit Sinha - Short Term Borrowings - NX"),
  ("Brijesh Loan Account - QB - NX", "Short Term Investment:Brijesh Loan Account - NX"),
  ("ADCB 12033795820001 AED02 - QB - NX", "ADCB 12033795820001 AED02 - NX"),
  ("ADCB 12033795920001 AED01 - QB - NX", "ADCB 12033795920001 AED01 - NX"),
  ("ADCB Loan - QB - NX", "ADCB Loan - NX"),
  ("ADCB USD (IN AED) 23033795830001 - QB - NX", "ADCB USD (IN AED) 23033795830001 - NX"),
  ("Accounts Payable (A/P) - QB - NX", "Creditors - NX"),
  ("Accounts Payable (A/P) - USD - QB - NX", "Creditors USD - NX"),
  ("Accounts Payable (A/P) - INR - QB - NX", "Creditors INR - NX"),
  ("Accounts Payable (A/P) - OMR - QB - NX", "Creditors OMR - NX"),
  ("Accounts Payable (A/P) - EUR - QB - NX", "Creditors EUR - NX"),
  ("Accounts Payable (A/P) - GBP - QB - NX", "Creditors GBP - NX"),
  ("Accounts Payable (A/P) - KWD - QB - NX", "Creditors KWD - NX"),
  ("Accounts Payable (A/P) - QAR - QB - NX", "Creditors QAR - NX"),
  ("Office Expense - QATAR - QB - NX", "Office Expense - QATAR - NX"),
  ("Accounts Receivable (A/R) - QB - NX", "Debtors - NX"),
  ("Accounts Receivable (A/R) - USD - QB - NX", "Debtors USD - NX"),
  ("Akbar Loan Account - QB - NX", "Short Term Investment:Akbar Loan Account - NX"),
  ("Appliances And Devices - Accumulated Depreciation - QB - NX", "Accumulated Depreciation - NX"),
  ("Arif Kandathil - QB - NX", "Payroll Expenses - NX"),
  ("BONUS PAID - QB - NX", "Bonus Paid - NX"),
  ("Bank charges - QB - NX", "Bank charges - NX"),
  ("CCTV Camera - Accumulated Depreciation - QB - NX", "Accumulated Depreciation - NX"),
  ("CONSUMABLES & TOOLS - QB - NX", "Consumables & Tools - NX"),
  ("Cash on hand - QB - NX", "Cash - NX"),
  ("Computer And Accessories - Accumulated Depreciation - QB - NX", "Accumulated Depreciation - NX"),
  ("Customs Charge - QB - NX", "Customs Charge - NX"),
  ("DISCOUNT RECEIVED - QB - NX", "Discount Received - NX"),
  ("Depreciation - Appliances And Devices - QB - NX", "Depreciation - Appliances And Devices - NX"),
  ("Depreciation - CCTV Camera - QB - NX", "Depreciation - CCTV Camera - NX"),
  ("Depreciation - Computer & Accessories - QB - NX", "Depreciation - Computer & Accessories - NX"),
  ("Depreciation - Furniture and Fixtures - QB - NX", "Depreciation - Furniture and Fixtures - NX"),
  ("Depreciation - Machinery and Equipment - QB - NX", "Depreciation - Machinery and Equipment - NX"),
  ("Depreciation - Motor Vehicle - QB - NX", "Depreciation - Motor Vehicle - NX"),
  ("Depreciation - Software - QB - NX", "Depreciation - Software - NX"),
  ("Dividend disbursed - QB - NX", "Dividend Disbursed - NX"),
  ("Dues and subscriptions - QB - NX", "Dues and subscriptions - NX"),
  ("Electricity & Water Expense - QB - NX", "Electricity & Water Expense - NX"),
  ("Exchange Gain or Loss - QB - NX", "Exchange Gain/Loss - NX"),
  ("FUEL EXPENSE - QB - NX", "Fuel Expense - NX"),
  ("Faisal Loan Account - QB - NX", "Short Term Investment:Faisal Loan Account - NX"),
  ("Furniture and Fixtures - Accumulated Depreciation - QB - NX", "Accumulated Depreciation - NX"),
  ("Furniture and Fixtures - QB - NX", "Furnitures and Fixtures - NX"),
  ("Gratuity Expense - QB - NX", "Gratuity Expense - NX"),
  ("Insurance - General - QB - NX", "Insurance - NX"),
  ("Interest expense - QB - NX", "Interest Expense - NX"),
  ("Interest income - QB - NX", "Interest income - NX"),
  ("Inventory - QB - NX", "Inventory - NX"),
  ("Junaid Bhai Loan Account - QB - NX", "Short Term Investment:Junaid Bhai Loan Account - NX"),
  ("Khaan Saab Loan Account - QB - NX", "Short Term Investment:Khaan Saab Loan Account - NX"),
  ("LOAN TO STAFF - QB - NX", "LOAN TO STAFF - NX"),
  ("Legal and professional fees - QB - NX", "Legal Expenses - NX"),
  ("Commissions and fees - QB - NX", "Commissions and fees - NX"),
  ("Machinery and equipment - Accumulated Depreciation - QB - NX", "Accumulated Depreciation - NX"),
  ("Machinery and equipment - QB - NX", "Machinery and equipment - NX"),
  ("PRELIMINARY EXPENSE - QB - NX", "Preliminary Expense - NX"),
  ("Computer And Accessories - QB - NX", "Computer And Accessories - NX"),
  ("Insurance - Disability - QB - NX", "Insurance - NX"),
  ("Utilities - QB - NX", "Utilities - NX"),
  ("Other Expense - QB - NX", "Other Expense - NX"),
  ("Other operating income (expenses) - QB - NX", "Other operating income (expenses) - NX"),
  ("Bad debts - QB - NX", "Bad debts - NX"),
  ("Other selling expenses - QB - NX", "Other selling expenses - NX"),
  ("Meals and entertainment - QB - NX", "Meals and entertainment - NX"),
  ("Motor Vehicle - Accumulated Depreciation - QB - NX", "Accumulated Depreciation - NX"),
  ("Motor Vehicle - QB - NX", "Motor Vehicle - NX"),
  ("Uncategorised Expense - QB - NX", "Uncategorised Expense - NX"),
  ("Uncategorised Income - QB - NX", "Uncategorised Income - NX"),
  ("OFFICE REFRESHMENTS - QB - NX", "Office Refreshments - NX"),
  ("Office expenses - QB - NX", "Office expenses - NX"),
  ("Other general and administrative expenses - QB - NX", "Other general and administrative expenses - NX"),
  ("Overhead - COS - QB - NX", "Overhead - COS - NX"),
  ("Payroll Expenses - 1 - QB - NX", "Payroll Expenses - NX"),
  ("Petty Cash - QB - NX", "Petty Cash - NX"),
  ("Prepaid Visa Expense - QB - NX", "Prepaid Visa Expense - NX"),
  ("Prepaid expenses - QB - NX", "Prepaid expenses - NX"),
  ("Provision for Gratuity - QB - NX", "Provision for Gratuity - NX"),
  ("Purchases - QB - NX", "Purchases - NX"),
  ("ROUNDOFF - QB - NX", "Round Off - NX"),
  ("Rent or lease payments - QB - NX", "Rent or lease payments - NX"),
  ("Repairs and Maintenance - QB - NX", "Repairs and Maintenance - NX"),
  ("Retained Earnings - QB - NX", "Retained Earnings - NX"),
  ("Salim Lakdawala Loan Account - QB - NX", "Short Term Investment:Salim Lakdawala Loan Account - NX"),
  ("Samiuddin Siddqi Loan Account - QB - NX", "Short Term Investment:Samiuddin Siddqi Loan Account - NX"),
  ("Security Deposits - QB - NX", "Security Deposits - NX"),
  ("Shipping and delivery expense - QB - NX", "Shipping and delivery - NX"),
  ("Short Term Investment - 1 - QB - NX", "Short Term Investment - NX"),
  ("Software - Accumulated Depreciation - QB - NX", "Accumulated Depreciation - NX"),
  ("Software - QB - NX", "Software - NX"),
  ("CCTV Camera - 1 - QB - NX", "CCTV Camera - NX"),
  ("Appliances And Devices - QB - NX", "Appliances And Devices - NX"),
  ("Staff Visa Expense - U.A.E - QB - NX", "Staff Visa Expense - U.A.E - NX"),
  ("Staff Welfare Expense - QB - NX", "Staff Welfare Expense - NX"),
  ("Stationery and printing - QB - NX", "Print and Stationery - NX"),
  ("Supplies - QB - NX", "Supplies - NX"),
  ("Suspense Account - QB - NX", "Suspense Account - NX"),
  ("Telephone expense - QB - NX", "Telephone Expenses - NX"),
  ("Travel expenses - general and admin expenses - QB - NX", "Travel expenses - general and admin expenses - NX"),
  ("VAT Control - QB - NX", "VAT Control - NX"),
  ("VAT Payable / Receivable - QB - NX", "VAT Payable / Receivable - NX"),
  ("VAT Suspense - QB - NX", "VAT Suspense - NX"),
  ("VISA CANCELLATION EXPENSE - QB - NX", "VISA CANCELLATION EXPENSE - NX"),
  ("VISIT VISA EXPENSE - QB - NX", "VISIT VISA EXPENSE - NX"),
  ("Waste Management Expense - QB - NX", "Waste Management Expense - NX"),
  ("Sales - QB - NX", "Sales - NX"),
  ("Discounts given - QB - NX", "Discounts given - NX"),
  ("DESKTOP / LAPTOP - 1 - QB - NX", "DESKTOP / LAPTOP - NX"),
  ("AMC EXPENSES - QB - NX", "AMC EXPENSES - NX"),
  ("Website Development and Maintenance Charges - QB - NX", "Website Development and Maintenance Charges - NX"),
  ("AUDIT EXPENSE - QB - NX", "AUDIT EXPENSE - NX")]

/-- `accounts_map[name]` lookup; `none` models the `KeyError`. -/
def accountsMapLookup (name : String) : Option String :=
  (accountsMap.find? (fun p => p.1 == name)).map (fun p => p.2)

/-- A `(type, id)` group of General Ledger lines as stored in
`self.general_ledger` and handed to `__save_ledger_entry_as_je`. -/
structure LedgerEntryGL where
  id : String := ""
  date : String := ""
  lines : List GLLine := []
  deriving Repr, DecidableEq

/-- The all-zero skip condition of `__save_ledger_entry_as_je` (source
1772-1774). -/
def glLineSkipped (line : GLLine) : Bool :=
  line.credit == 0 && line.debit == 0 && line.creditHomeAmt == 0 && line.debtHomeAmt == 0

/-- The first loop body of `__save_ledger_entry_as_je` (source 1771-1813):
skip all-zero lines, rewrite the account through `accounts_map` (a missing key
raises `KeyError`), infer the party from the vendor/customer column, pick the
debit or credit side and its amount (account-currency value when the line
currency matches the account's, home-currency value otherwise) and accumulate
the company-currency debit/credit totals. -/
def ledgerLineStep (db : DB) (st : List AccountLine × ℚ × ℚ) (line : GLLine) :
    Except String (List AccountLine × ℚ × ℚ) := do
  let (accounts, totalDebitCC, totalCreditCC) := st
  if glLineSkipped line then pure st
  else do
    let mappedAccount ← match accountsMapLookup line.account with
      | some m => Except.ok m
      | none => Except.error "KeyError: accounts_map"
    let party :=
      if line.vendor != "" && (payableNames db.accounts).contains line.account then
        (some "Supplier", some (stripPartyName line.vendor))
      else if line.customer != "" && (receivableNames db.accounts).contains line.account then
        (some "Customer", some (stripPartyName line.customer))
      else ((none : Option String), (none : Option String))
    let accountCurrency := accountCurrencyOf db.accounts line.account
    -- source 1793-1798: side selection
    let amountIsCredit :=
      if line.credit != 0 || line.debit != 0 then line.credit != 0
      else line.creditHomeAmt != 0
    let rawAmt := if amountIsCredit then line.credit else line.debit
    let homeAmt := if amountIsCredit then line.creditHomeAmt else line.debtHomeAmt
    -- source 1800-1804: amount in account currency
    let value :=
      if accountCurrency == some line.currency then
        (if rawAmt != 0 then rawAmt else homeAmt)
      else homeAmt
    let accountLine : AccountLine :=
      { account := mappedAccount, costCenter := db.defaultCostCenter,
        userRemark := some line.memo,
        partyType := party.1, party := party.2,
        debitInAccountCurrency := if amountIsCredit then none else some value,
        creditInAccountCurrency := if amountIsCredit then some value else none }
    -- source 1806-1811: company-currency totals
    let totals :=
      if accountCurrency == some db.companyCurrency then
        (if amountIsCredit then (totalDebitCC, totalCreditCC + value)
         else (totalDebitCC + value, totalCreditCC))
      else (totalDebitCC, totalCreditCC)
    pure (accounts ++ [accountLine], totals.1, totals.2)

/-- The second loop of `__save_ledger_entry_as_je` (source 1815-1821): every
line whose (mapped) account is not in the company currency gets an exchange
rate back-solved from the company-currency imbalance; a zero amount raises
`ZeroDivisionError`. -/
def ledgerSetExchangeRates (db : DB) (accounts : List AccountLine)
    (totalDebitCC totalCreditCC : ℚ) : Except String (List AccountLine) :=
  accounts.foldlM (fun acc accountLine => do
    if accountCurrencyOf db.accounts accountLine.account != some db.companyCurrency then do
      let amount := match accountLine.creditInAccountCurrency with
        | some c => c
        | none => accountLine.debitInAccountCurrency.getD 0
      if amount == 0 then Except.error "ZeroDivisionError"
      else pure (acc ++
        [{ accountLine with
            exchangeRate := some (|totalDebitCC - totalCreditCC| / amount) }])
    else pure (acc ++ [accountLine])) []

/-- `__save_ledger_entry_as_je` (source 1648-1826): the whole body is inside
`try`/`except` (and the `except` logs only the input, so it cannot crash);
any exception leaves the store unchanged, and an empty account list skips the
save (source 1823). -/
def saveLedgerEntryAsJe (db : DB) (ledgerEntry : LedgerEntryGL)
    (quickbooksId : String) : DB :=
  match (do
    let (accounts, d, c) ← ledgerEntry.lines.foldlM (ledgerLineStep db) ([], 0, 0)
    ledgerSetExchangeRates db accounts d c : Except String (List AccountLine)) with
  | .error _ => db
  | .ok accounts =>
      if accounts.isEmpty then db
      else saveJournalEntryImpl quickbooksId accounts ledgerEntry.date db

/-! ## Helper lemmas -/

theorem exceptBindOk {α β : Type} {x : Except String α} {f : α → Except String β} {b : β}
    (h : x >>= f = .ok b) : ∃ a, x = .ok a ∧ f a = .ok b := by
  cases x with
  | ok a => exact ⟨a, rfl, h⟩
  | error e => exact Except.noConfusion h

theorem saveJournalEntryImpl_accounts (q : String) (a : List AccountLine)
    (d : String) (db : DB) : (saveJournalEntryImpl q a d db).accounts = db.accounts := by
  unfold saveJournalEntryImpl
  split
  · rfl
  · split <;> rfl

theorem saveJournalEntryImpl_defaultCostCenter (q : String) (a : List AccountLine)
    (d : String) (db : DB) :
    (saveJournalEntryImpl q a d db).defaultCostCenter = db.defaultCostCenter := by
  unfold saveJournalEntryImpl
  split
  · rfl
  · split <;> rfl

/-! ## C1 -/

/-- C1: for every journal entry persisted by the builder (`__save_journal_entry`,
embedded as `saveJournalEntryImpl`), the sum over its account lines of
`debit_in_account_currency * exchange_rate` equals the sum of
`credit_in_account_currency * exchange_rate` within the 2-decimal rounding
tolerance (`balancedJE`); and an entry violating this balance is never
partially persisted: the builder either leaves the store unchanged or appends
exactly the one complete, balanced entry. -/
theorem claim1_persisted_entries_balanced (quickbooksId : String)
    (accounts : List AccountLine) (postingDate : String) (db : DB)
    (h : ∀ je ∈ db.journalEntries, balancedJE je.accounts = true) :
    (∀ je ∈ (saveJournalEntryImpl quickbooksId accounts postingDate db).journalEntries,
        balancedJE je.accounts = true) ∧
    (saveJournalEntryImpl quickbooksId accounts postingDate db = db ∨
      (balancedJE accounts = true ∧
        saveJournalEntryImpl quickbooksId accounts postingDate db =
          { db with journalEntries := db.journalEntries ++
              [{ name := quickbooksId, quickbooksId := quickbooksId,
                 postingDate := postingDate, accounts := accounts }] })) := by
  unfold saveJournalEntryImpl
  by_cases hex : jeExists db quickbooksId
  · simp only [hex, if_true]
    exact ⟨h, Or.inl trivial⟩
  · simp only [hex, if_false, Bool.false_eq_true]
    by_cases hacc : storageAcceptsJE accounts
    · simp only [hacc, if_true]
      refine ⟨?_, Or.inr ⟨hacc, trivial⟩⟩
      intro je hje
      simp only [List.mem_append, List.mem_singleton] at hje
      rcases hje with hje | hje
      · exact h je hje
      · subst hje
        exact hacc
    · simp only [hacc, if_false, Bool.false_eq_true]
      exact ⟨h, Or.inl trivial⟩

/-- Witness for C1 at a concrete input: the builder run on an empty store with
an empty (hence balanced) account list either is a no-op or appends exactly
that one balanced entry. -/
theorem claim1_persisted_entries_balanced_witness :
    saveJournalEntryImpl "Journal Entry - 1" [] "2024-01-01" {} = {} ∨
      (balancedJE [] = true ∧
        saveJournalEntryImpl "Journal Entry - 1" [] "2024-01-01" {} =
          { ({} : DB) with journalEntries :=
              ({} : DB).journalEntries ++
                [{ name := "Journal Entry - 1", quickbooksId := "Journal Entry - 1",
                   postingDate := "2024-01-01", accounts := [] }] }) :=
  (claim1_persisted_entries_balanced "Journal Entry - 1" [] "2024-01-01" {}
    (by intro je hje; simp at hje)).2

/-! ## C3 -/

/-- C3 counterexample: the claim "refreshes credentials and retries the failing
request exactly once; a second consecutive 401 is not retried again but
propagates as an error" is false of `_get`: on the response sequence
`[401, 401, 200]` the fetcher refreshes twice and returns the 200 response
instead of propagating an error after the second 401. -/
theorem claim3_counterexample :
    ¬ (∀ responses result, getStatus responses = some result → result.2 ≤ 1) := by
  intro h
  have h2 := h [401, 401, 200] (200, 2) (by decide)
  exact absurd h2 (by decide)

/-- C3 amended: `_get` retries on every 401 with no bound at all — it refreshes
once per consecutive 401 response and returns the first non-401 response; a
second consecutive 401 triggers a further refresh-and-retry rather than an
error. -/
theorem claim3_unbounded_retry (k status : Nat) (rest : List Nat) (h : status ≠ 401) :
    getStatus (List.replicate k 401 ++ status :: rest) = some (status, k) := by
  induction k with
  | zero => simp [getStatus, h]
  | succ n ih => simp [getStatus, ih]

/-- Witness for the amended C3 at a concrete input: two consecutive 401
responses followed by a 200 yield the 200 after two refreshes. -/
theorem claim3_unbounded_retry_witness :
    getStatus (List.replicate 2 401 ++ 200 :: []) = some (200, 2) :=
  claim3_unbounded_retry 2 200 [] (by decide)

/-! ## C4 -/

/-- C4 counterexample: the claim says a payable/receivable party name is
stripped at the FIRST `:` separator, so that `"A:B:C"` collapses to `"A"`; the
source's greedy `re.match(r"^(.*):", party)` (embedded as `stripPartyName`)
strips at the LAST `:` instead, collapsing `"A:B:C"` to `"A:B"`.  The
spec-worded first-colon variant gives a different result on the same input. -/
theorem claim4_counterexample :
    stripPartyName "A:B:C" = "A:B" ∧
    String.mk (stripPartyCharsSpecFirstColon "A:B:C".data) = "A" ∧
    stripPartyName "A:B:C" ≠ "A" := by
  refine ⟨by decide, by decide, by decide⟩

/-- `lastColonSplit` fails exactly on colon-free strings. -/
theorem lastColonSplit_eq_none (l : List Char) (h : ':' ∉ l) :
    lastColonSplit l = none := by
  induction l with
  | nil => rfl
  | cons c rest ih =>
      simp only [List.mem_cons, not_or] at h
      unfold lastColonSplit
      rw [ih h.2]
      have hc : c ≠ ':' := fun he => h.1 he.symm
      simp [hc]

/-- Characters of `takeWhile` are characters of the list. -/
theorem mem_of_mem_takeWhile {p : Char → Bool} {l : List Char} {c : Char}
    (h : c ∈ l.takeWhile p) : c ∈ l := by
  induction l with
  | nil => simp at h
  | cons d rest ih =>
      by_cases hp : p d
      · rw [List.takeWhile_cons_of_pos hp] at h
        rcases List.mem_cons.mp h with h | h
        · exact List.mem_cons.mpr (Or.inl h)
        · exact List.mem_cons.mpr (Or.inr (ih h))
      · rw [List.takeWhile_cons_of_neg hp] at h
        simp at h

/-- On a first line ending in a colon followed by a colon-free tail, the split
keeps exactly the prefix before that (last) colon. -/
theorem lastColonSplit_append (a b : List Char) (hb : ':' ∉ b) :
    lastColonSplit (a ++ ':' :: b) = some a := by
  induction a with
  | nil =>
      rw [List.nil_append]
      unfold lastColonSplit
      rw [lastColonSplit_eq_none b hb]
      rfl
  | cons c rest ih =>
      rw [List.cons_append]
      unfold lastColonSplit
      rw [ih]

/-- `takeWhile` keeps a list all of whose elements satisfy the test. -/
theorem takeWhile_of_all {p : Char → Bool} :
    ∀ l : List Char, (∀ x ∈ l, p x) → l.takeWhile p = l := by
  intro l
  induction l with
  | nil => intro _; rfl
  | cons c rest ih =>
      intro h
      rw [List.takeWhile_cons_of_pos (h c (List.mem_cons_self c rest))]
      rw [ih (fun x hx => h x (List.mem_cons.mpr (Or.inr hx)))]

/-- C4 amended: the code strips a party name at the LAST `:` of its first line
(the greedy regex capture), and leaves a name without `:` unchanged. -/
theorem claim4_strip_at_last_colon (a b s : List Char)
    (hna : '\n' ∉ a) (hnb : '\n' ∉ b) (hb : ':' ∉ b) (hs : ':' ∉ s) :
    stripPartyChars (a ++ ':' :: b) = a ∧ stripPartyChars s = s := by
  constructor
  · unfold stripPartyChars
    have ht : (a ++ ':' :: b).takeWhile (fun c => c != '\n') = a ++ ':' :: b := by
      apply takeWhile_of_all
      intro x hx
      rcases List.mem_append.mp hx with hx | hx
      · have : x ≠ '\n' := fun he => hna (he ▸ hx)
        simpa using this
      · rcases List.mem_cons.mp hx with hx | hx
        · subst hx; decide
        · have : x ≠ '\n' := fun he => hnb (he ▸ hx)
          simpa using this
    rw [ht, lastColonSplit_append a b hb]
  · unfold stripPartyChars
    have hmem : ':' ∉ s.takeWhile (fun c => c != '\n') := by
      intro hmem
      exact hs (mem_of_mem_takeWhile hmem)
    rw [lastColonSplit_eq_none _ hmem]

/-- Witness for the amended C4 at a concrete input. -/
theorem claim4_strip_at_last_colon_witness :
    stripPartyChars (['A', ':', 'B'] ++ ':' :: ['C']) = ['A', ':', 'B'] ∧
    stripPartyChars ['A', 'B', 'C'] = ['A', 'B', 'C'] :=
  claim4_strip_at_last_colon ['A', ':', 'B'] ['C'] ['A', 'B', 'C']
    (by decide) (by decide) (by decide) (by decide)

/-! ## Concrete sample data for witnesses and counterexamples -/

/-- A small store: a receivable, a payable, a bank and an expense account, a
sales invoice and a purchase invoice each with outstanding amount 50. -/
def sampleDB : DB :=
  { companyCurrency := "USD",
    accounts := [
      { name := "Debtors - T", quickbooksId := some "7",
        accountType := some "Receivable", accountCurrency := some "USD" },
      { name := "Creditors - T", quickbooksId := some "8",
        accountType := some "Payable", accountCurrency := some "USD" },
      { name := "Bank - T", quickbooksId := some "10",
        accountType := some "Bank", accountCurrency := some "USD" },
      { name := "Rent - T", quickbooksId := some "11",
        accountCurrency := some "USD" }],
    salesInvoices := [
      { name := "SINV-1", quickbooksId := "Invoice - 7", customer := "CustA",
        debitTo := "Debtors - T", grandTotal := 120, outstandingAmount := 50,
        conversionRate := 1, currency := "USD" }],
    purchaseInvoices := [
      { name := "PINV-1", quickbooksId := "Bill - 9", supplier := "SupB",
        creditTo := "Creditors - T", grandTotal := 120, outstandingAmount := 50,
        conversionRate := 1 }] }

/-- A payment of 80 against the sample invoice whose outstanding amount is 50. -/
def samplePayment : Payment :=
  { id := "1", depositToAccountRef := some "10", currency := "USD",
    exchangeRate := 1, totalAmt := 80, txnDate := "2024-01-02",
    lines := [{ amount := 80, linkedTxn := [{ txnType := "Invoice", txnId := "7" }] }] }

/-- A bill payment of 80 against the sample bill whose outstanding amount is 50. -/
def sampleBillPayment : BillPayment :=
  { id := "2", payType := "Check", checkBankAccountRef := some "10",
    currency := "USD", exchangeRate := 1, totalAmt := 80, txnDate := "2024-01-02",
    lines := [{ amount := 80, linkedTxn := [{ txnType := "Bill", txnId := "9" }] }] }

/-! ## C5 -/

unseal Rat.mul Rat.add Rat.inv in
/-- C5: the applied settlement amount of a payment (or bill-payment) line
linked to an invoice is `min(line amount, outstanding amount)`: the capping
step `capOutstanding` used by both `_save_payment` and `_save_bill_payment`
computes exactly `min`, and on the concrete scenario of an invoice with
outstanding amount 50 and a line of 80 the entry produced by the line step
applies 50, not 80. -/
theorem claim5_payment_capping (a o : ℚ) :
    capOutstanding a o = min a o ∧
    (paymentLineStep sampleDB samplePayment ([], 0, none, none)
        { amount := 80, linkedTxn := [{ txnType := "Invoice", txnId := "7" }] }).toOption.map
        (fun st => st.1.map (fun l => l.creditInAccountCurrency)) = some [some 50] ∧
    (billPaymentLineStep sampleDB sampleBillPayment ([], 0, none)
        { amount := 80, linkedTxn := [{ txnType := "Bill", txnId := "9" }] }).toOption.map
        (fun st => st.1.map (fun l => l.debitInAccountCurrency)) = some [some 50] := by
  refine ⟨?_, by decide, by decide⟩
  unfold capOutstanding
  rcases le_or_lt a o with h | h
  · rw [if_neg (not_lt.mpr h), min_eq_left h]
  · rw [if_pos h, min_eq_right h.le]

/-! ## C6 -/

/-- C6: a payment record with no `DepositToAccountRef` makes `_save_payment`
return without creating any entry and without changing any persisted state. -/
theorem claim6_payment_without_deposit_ref (db : DB) (payment : Payment)
    (h : payment.depositToAccountRef = none) :
    savePayment db payment = db := by
  unfold savePayment
  rw [h]

/-- Witness for C6 at a concrete input. -/
theorem claim6_payment_without_deposit_ref_witness :
    savePayment sampleDB
      { id := "3", depositToAccountRef := none, currency := "USD",
        exchangeRate := 1, totalAmt := 80, txnDate := "2024-01-02" } = sampleDB :=
  claim6_payment_without_deposit_ref sampleDB _ rfl

/-! ## C7 -/

unseal Rat.mul Rat.add Rat.inv in
/-- C7 counterexample: the claim says that when the line's account currency
matches the transaction currency "the line's exchange rate is 1 and the raw
transaction amount is used unmodified".  On a `JournalEntry` line whose account
currency ("USD") matches the transaction currency with transaction exchange
rate 2, the code writes the TRANSACTION rate (2), not 1, as the line's
exchange rate (the raw amount is indeed unmodified). -/
theorem claim7_counterexample :
    (jeLineAccount sampleDB.accounts none "USD" 2
        { detailType := "JournalEntryLineDetail", accountRef := "10",
          postingType := "Debit", amount := 10 }).toOption.map
        (fun o => o.map (fun l => (l.exchangeRate, l.debitInAccountCurrency))) =
      some (some (some 2, some 10)) ∧
    (2 : ℚ) ≠ 1 := by
  refine ⟨by decide, by decide⟩

/-- C7 amended: `currencyConv` — the conversion shared by the journal-entry,
payment, purchase and deposit transformers — applies the transaction exchange
rate exactly once overall: when the currencies DIFFER the amount is multiplied
once by the rate and the line's exchange-rate field is 1; when they MATCH the
raw amount is unmodified and the line's exchange-rate field carries the
transaction rate; in both cases the product of field and multiplier is the
rate, so the rate is never applied twice. -/
theorem claim7_rate_applied_once (accountCurrency : Option String)
    (txnCurrency : String) (rate : ℚ) :
    (accountCurrency = some txnCurrency →
        currencyConv accountCurrency txnCurrency rate = (rate, 1)) ∧
    (accountCurrency ≠ some txnCurrency →
        currencyConv accountCurrency txnCurrency rate = (1, rate)) ∧
    (currencyConv accountCurrency txnCurrency rate).1 *
        (currencyConv accountCurrency txnCurrency rate).2 = rate := by
  by_cases h : accountCurrency = some txnCurrency
  · have hb : (accountCurrency == some txnCurrency) = true := beq_iff_eq.mpr h
    refine ⟨fun _ => ?_, fun hne => absurd h hne, ?_⟩
    · unfold currencyConv
      rw [hb]
      rfl
    · unfold currencyConv
      rw [hb]
      simp
  · have hb : (accountCurrency == some txnCurrency) = false := by
      simpa using h
    refine ⟨fun he => absurd he h, fun _ => ?_, ?_⟩
    · unfold currencyConv
      rw [hb]
      rfl
    · unfold currencyConv
      rw [hb]
      simp

/-- Witness for the amended C7 at a concrete input: differing currencies give
the once-multiplied amount with a rate field of 1. -/
theorem claim7_rate_applied_once_witness :
    currencyConv (some "AED") "USD" (367/100) = (1, 367/100) :=
  (claim7_rate_applied_once (some "AED") "USD" (367/100)).2.1 (by decide)

/-! ## C2 helper lemmas -/

/-- Records with a given idempotency key among the persisted Journal Entries. -/
def jeCount (db : DB) (q : String) : Nat :=
  (db.journalEntries.filter (fun je => je.quickbooksId == q)).length

/-- Records with a given idempotency key among the persisted Sales Invoices. -/
def siCount (db : DB) (q : String) : Nat :=
  (db.salesInvoices.filter (fun si => si.quickbooksId == q)).length

theorem saveJournalEntryImpl_noop {db : DB} {q : String} (a : List AccountLine)
    (pd : String) (h : jeExists db q = true) :
    saveJournalEntryImpl q a pd db = db := by
  unfold saveJournalEntryImpl
  rw [h]
  rfl

theorem jeExists_after_insert (db : DB) (q pd : String) (a : List AccountLine) :
    jeExists { db with journalEntries := db.journalEntries ++
      [{ name := q, quickbooksId := q, postingDate := pd, accounts := a }] } q = true := by
  unfold jeExists
  simp

theorem saveJournalEntryImpl_idem (q : String) (a : List AccountLine)
    (pd : String) (db : DB) :
    saveJournalEntryImpl q a pd (saveJournalEntryImpl q a pd db) =
      saveJournalEntryImpl q a pd db := by
  by_cases hex : jeExists db q = true
  · rw [saveJournalEntryImpl_noop a pd hex]
    exact saveJournalEntryImpl_noop a pd hex
  · by_cases hacc : storageAcceptsJE a = true
    · have hstep : saveJournalEntryImpl q a pd db =
          { db with journalEntries := db.journalEntries ++
              [{ name := q, quickbooksId := q, postingDate := pd, accounts := a }] } := by
        unfold saveJournalEntryImpl
        simp [hex, hacc]
      rw [hstep]
      exact saveJournalEntryImpl_noop a pd (jeExists_after_insert db q pd a)
    · have hstep : saveJournalEntryImpl q a pd db = db := by
        unfold saveJournalEntryImpl
        simp [hex, hacc]
      rw [hstep]
      exact hstep

theorem jeCount_impl_le (q : String) (a : List AccountLine) (pd : String) (db : DB) :
    jeCount (saveJournalEntryImpl q a pd db) q ≤ jeCount db q + 1 := by
  unfold saveJournalEntryImpl
  split
  · exact Nat.le_succ _
  · split
    · unfold jeCount
      simp
    · exact Nat.le_succ _

/-- `buildSalesInvoice` reads no persisted Sales Invoice, so inserting one does
not change its result. -/
theorem buildSalesInvoice_ignores_salesInvoices (db : DB) (X : List SalesInvoice)
    (invoice : QBInvoice) (q : String) (r p : Bool) :
    buildSalesInvoice { db with salesInvoices := X } invoice q r p =
      buildSalesInvoice db invoice q r p := rfl

/-- The row built by `buildSalesInvoice` carries the idempotency key it was
given. -/
theorem buildSalesInvoice_key (db : DB) (invoice : QBInvoice) (q : String)
    (r p : Bool) (row : SalesInvoice)
    (h : buildSalesInvoice db invoice q r p = .ok row) :
    row.quickbooksId = q := by
  unfold buildSalesInvoice at h
  obtain ⟨c, _, h⟩ := exceptBindOk h
  obtain ⟨items, _, h⟩ := exceptBindOk h
  obtain ⟨taxes, _, h⟩ := exceptBindOk h
  obtain ⟨payments, _, h⟩ := exceptBindOk h
  have : row = storedSalesInvoice db invoice q c items taxes payments r p
      (match getDiscount invoice.lines with
        | some _ => some (if invoice.applyTaxAfterDiscount then "Net Total" else "Grand Total")
        | none => none)
      (match getDiscount invoice.lines with
        | some d => d.discountAmount
        | none => none) := by
    cases h
    rfl
  rw [this]
  rfl

theorem siExists_after_insert (db : DB) (q : String) (row : SalesInvoice)
    (hkey : row.quickbooksId = q) :
    siExists { db with salesInvoices := db.salesInvoices ++ [row] } q = true := by
  unfold siExists
  simp [hkey]

/-! ## C2 -/

/-- C2: invoking the same Transformer twice with the same source record and
deterministically computed idempotency key produces at most one persisted
record, and a call finding the key already present creates nothing and changes
no persisted state.  Stated for the common journal-entry sink
`__save_journal_entry` (`saveJournalEntryImpl`), for the `JournalEntry`
transformer built on it (`saveJournalEntry`), and for `_save_sales_invoice`
(`saveSalesInvoice`). -/
theorem claim2_idempotent (q pd : String) (a : List AccountLine)
    (db db2 db3 db4 : DB) (journalEntry : QBJournalEntry)
    (invoice : QBInvoice) (q2 : String) (r p : Bool) :
    (jeExists db q = true → saveJournalEntryImpl q a pd db = db) ∧
    (saveJournalEntryImpl q a pd (saveJournalEntryImpl q a pd db) =
      saveJournalEntryImpl q a pd db) ∧
    (jeCount db q = 0 →
      jeCount (saveJournalEntryImpl q a pd (saveJournalEntryImpl q a pd db)) q ≤ 1) ∧
    (saveJournalEntry db journalEntry = .ok db4 →
      saveJournalEntry db4 journalEntry = .ok db4) ∧
    (siExists db2 q2 = true → saveSalesInvoice db2 invoice q2 r p = .ok db2) ∧
    (saveSalesInvoice db2 invoice q2 r p = .ok db3 →
      saveSalesInvoice db3 invoice q2 r p = .ok db3) ∧
    (siCount db2 q2 = 0 → saveSalesInvoice db2 invoice q2 r p = .ok db3 →
      siCount db3 q2 ≤ 1) := by
  refine ⟨fun h => saveJournalEntryImpl_noop a pd h,
    saveJournalEntryImpl_idem q a pd db, fun h0 => ?_, fun h => ?_, fun hex => ?_,
    fun h => ?_, fun h0 h => ?_⟩
  · rw [saveJournalEntryImpl_idem]
    calc jeCount (saveJournalEntryImpl q a pd db) q ≤ jeCount db q + 1 :=
          jeCount_impl_le q a pd db
      _ = 1 := by rw [h0]
  · -- JournalEntry transformer idempotence
    unfold saveJournalEntry at h ⊢
    obtain ⟨acc, hacc, hpure⟩ := exceptBindOk h
    have hdb4 : db4 = saveJournalEntryImpl ("Journal Entry - " ++ journalEntry.id)
        acc journalEntry.txnDate db := by
      cases hpure
      rfl
    have hfull : jeAccountsFull db4.accounts db4.defaultCostCenter journalEntry =
        .ok acc := by
      rw [hdb4, saveJournalEntryImpl_accounts, saveJournalEntryImpl_defaultCostCenter]
      exact hacc
    rw [hfull]
    show Except.ok (saveJournalEntryImpl _ acc journalEntry.txnDate db4) = .ok db4
    rw [hdb4]
    rw [saveJournalEntryImpl_idem]
  · unfold saveSalesInvoice
    rw [hex]
    simp
  · -- second Sales Invoice call is a no-op
    unfold saveSalesInvoice at h ⊢
    by_cases hex : siExists db2 q2 = true
    · rw [hex] at h
      simp only [if_true] at h
      cases h
      rw [hex]
      simp
    · simp only [hex, if_false, Bool.false_eq_true] at h
      cases hb : buildSalesInvoice db2 invoice q2 r p with
      | error e =>
          rw [hb] at h
          exact Except.noConfusion h
      | ok row =>
          rw [hb] at h
          have hdb3 : db3 = { db2 with salesInvoices := db2.salesInvoices ++ [row] } := by
            cases h
            rfl
          have hkey := buildSalesInvoice_key db2 invoice q2 r p row hb
          subst hdb3
          rw [siExists_after_insert db2 q2 row hkey]
          simp
  · -- at most one Sales Invoice record with the key
    unfold saveSalesInvoice at h
    by_cases hex : siExists db2 q2 = true
    · rw [hex] at h
      simp only [if_true] at h
      cases h
      rw [h0]
      exact Nat.zero_le 1
    · simp only [hex, if_false, Bool.false_eq_true] at h
      cases hb : buildSalesInvoice db2 invoice q2 r p with
      | error e =>
          rw [hb] at h
          exact Except.noConfusion h
      | ok row =>
          rw [hb] at h
          have hdb3 : db3 = { db2 with salesInvoices := db2.salesInvoices ++ [row] } := by
            cases h
            rfl
          have hkey := buildSalesInvoice_key db2 invoice q2 r p row hb
          subst hdb3
          unfold siCount at h0 ⊢
          simp only [List.filter_append, List.length_append]
          rw [h0]
          simp [hkey]

/-- A store already holding a journal entry with key `"Journal Entry - 9"`. -/
def sampleDBWithJE : DB :=
  { journalEntries :=
      [{ name := "JE-1",
         quickbooksId := "Journal Entry - 9",
         postingDate := "2024-01-01",
         accounts := [] }] }

/-- Witness for C2 at a concrete input: the builder called with a key that is
already persisted changes nothing. -/
theorem claim2_idempotent_witness :
    saveJournalEntryImpl "Journal Entry - 9" [] "2024-01-01" sampleDBWithJE =
      sampleDBWithJE :=
  (claim2_idempotent "Journal Entry - 9" "2024-01-01" [] sampleDBWithJE sampleDB
      sampleDB sampleDB
      { id := "1", currency := "USD", exchangeRate := 1, txnDate := "2024-01-01",
        lines := [] }
      { id := "1", currency := "USD", txnDate := "2024-01-01", customerRef := "c1" }
      "Invoice - 1" false false).1 (by decide)

/-! ## C8 -/

/-- A `JournalEntry` record whose two lines resolve and balance in `sampleDB`. -/
def sampleJEGood : QBJournalEntry :=
  { id := "21", currency := "USD", exchangeRate := 1, txnDate := "2024-01-03",
    lines := [
      { detailType := "JournalEntryLineDetail", accountRef := "10",
        postingType := "Debit", amount := 5 },
      { detailType := "JournalEntryLineDetail", accountRef := "11",
        postingType := "Credit", amount := 5 }] }

/-- A `JournalEntry` record referencing an account id (`"404"`) that resolves
to nothing in `sampleDB`. -/
def sampleJEBad : QBJournalEntry :=
  { id := "22", currency := "USD", exchangeRate := 1, txnDate := "2024-01-03",
    lines := [
      { detailType := "JournalEntryLineDetail", accountRef := "404",
        postingType := "Debit", amount := 5 }] }

unseal Rat.mul Rat.add Rat.inv in
/-- C8 counterexample: the claim that every per-record failure is caught inside
the Transformer and the migration loop proceeds to the next record is false:
`_save_journal_entry` builds its account list OUTSIDE any `try`/`except`, and
the `_save_entries` loop (source 405-416) has no per-record catch, so an
account-resolution failure (here: the unresolvable account reference of the
second record) escapes and aborts the remaining records of the entity loop. -/
theorem claim8_counterexample :
    ¬ (∀ (db : DB) (entries : List QBJournalEntry),
        (saveEntriesJournalEntry db entries).isOk = true) := by
  intro h
  have h2 := h sampleDB [sampleJEGood, sampleJEBad, sampleJEGood]
  exact absurd h2 (by decide)

/-- C8 amended: failures inside the persistence step `__save_journal_entry`
are caught there and do not abort the loop (it is a total function on the
store), but the account-line conversion of `_save_journal_entry` runs outside
any per-record handler: the `JournalEntry` entity loop completes exactly when
every record's lines and tax lines resolve (`jeAccountsFull` succeeds);
whether an entry balances or already exists does not abort the loop. -/
theorem claim8_loop_aborts_only_on_resolution :
    ∀ (entries : List QBJournalEntry) (db : DB),
      (∀ e ∈ entries, (jeAccountsFull db.accounts db.defaultCostCenter e).isOk = true) →
      (saveEntriesJournalEntry db entries).isOk = true := by
  intro entries
  induction entries with
  | nil => intro db _; rfl
  | cons e rest ih =>
      intro db h
      unfold saveEntriesJournalEntry
      rw [List.foldlM_cons]
      have he := h e (List.mem_cons_self e rest)
      cases hacc : jeAccountsFull db.accounts db.defaultCostCenter e with
      | error er =>
          rw [hacc] at he
          exact absurd he (by simp [Except.isOk, Except.toBool])
      | ok acc =>
          have hstep : saveJournalEntry db e =
              .ok (saveJournalEntryImpl ("Journal Entry - " ++ e.id) acc e.txnDate db) := by
            unfold saveJournalEntry
            rw [hacc]
            rfl
          rw [hstep]
          show (saveEntriesJournalEntry
              (saveJournalEntryImpl ("Journal Entry - " ++ e.id) acc e.txnDate db)
              rest).isOk = true
          apply ih
          intro x hx
          rw [saveJournalEntryImpl_accounts, saveJournalEntryImpl_defaultCostCenter]
          exact h x (List.mem_cons.mpr (Or.inr hx))

unseal Rat.mul Rat.add Rat.inv in
/-- Witness for the amended C8 at a concrete input: a batch whose records all
resolve completes the loop. -/
theorem claim8_loop_aborts_only_on_resolution_witness :
    (saveEntriesJournalEntry sampleDB [sampleJEGood]).isOk = true :=
  claim8_loop_aborts_only_on_resolution [sampleJEGood] sampleDB (by decide)

/-! ## C9 -/

theorem ledgerLineStep_fail (db : DB) (st : List AccountLine × ℚ × ℚ) (line : GLLine)
    (hz : glLineSkipped line = false) (hm : accountsMapLookup line.account = none) :
    ledgerLineStep db st line = .error "KeyError: accounts_map" := by
  obtain ⟨acc, d, c⟩ := st
  unfold ledgerLineStep
  simp [hz, hm]

theorem foldlM_ledger_error (db : DB) :
    ∀ (lines : List GLLine) (st : List AccountLine × ℚ × ℚ),
      (∃ line ∈ lines, glLineSkipped line = false ∧
        accountsMapLookup line.account = none) →
      ∃ e, lines.foldlM (ledgerLineStep db) st = .error e := by
  intro lines
  induction lines with
  | nil =>
      intro st h
      simp at h
  | cons l rest ih =>
      intro st h
      rw [List.foldlM_cons]
      rcases h with ⟨x, hx, hxz, hxm⟩
      rcases List.mem_cons.mp hx with hx | hx
      · subst hx
        rw [ledgerLineStep_fail db st x hxz hxm]
        exact ⟨_, rfl⟩
      · cases hstep : ledgerLineStep db st l with
        | error e => exact ⟨e, rfl⟩
        | ok st2 =>
            obtain ⟨e, he⟩ := ih st2 ⟨x, hx, hxz, hxm⟩
            exact ⟨e, he⟩

/-- C9: for a GL-derived ledger entry, if any of its non-zero lines names an
account that is not a key of the hard-coded `accounts_map` rename table, then
no journal entry is persisted at all: the `KeyError` is raised while building
the account list (before any save), caught by the surrounding `except`, and the
store is unchanged — no partial record with the already-mapped lines exists. -/
theorem claim9_unmapped_account_aborts_whole_entry (db : DB)
    (ledgerEntry : LedgerEntryGL) (quickbooksId : String)
    (h : ∃ line ∈ ledgerEntry.lines, glLineSkipped line = false ∧
        accountsMapLookup line.account = none) :
    saveLedgerEntryAsJe db ledgerEntry quickbooksId = db := by
  obtain ⟨e, he⟩ := foldlM_ledger_error db ledgerEntry.lines ([], 0, 0) h
  unfold saveLedgerEntryAsJe
  rw [he]
  rfl

/-- Witness for C9 at a concrete input: a one-line entry naming an account
missing from the rename table persists nothing. -/
theorem claim9_unmapped_account_aborts_whole_entry_witness :
    saveLedgerEntryAsJe sampleDB
      { id := "31", date := "2024-01-04",
        lines := [{ account := "Mystery Account - QB - NX", debit := 5 }] }
      "Advance Payment - 31" = sampleDB :=
  claim9_unmapped_account_aborts_whole_entry sampleDB _ _ (by decide)

/-! ## C10 -/

/-- C10: a bill-payment record whose `PayType` is neither `"Check"` nor
`"CreditCard"` persists no journal entry: `bank_account_id` is never assigned,
its first use raises, the error is caught by the transformer's `except`, and
the store is unchanged. -/
theorem claim10_bad_pay_type_saves_nothing (db : DB) (billPayment : BillPayment)
    (h1 : billPayment.payType ≠ "Check") (h2 : billPayment.payType ≠ "CreditCard") :
    saveBillPayment db billPayment = db := by
  have hb1 : (billPayment.payType == "Check") = false := by simpa using h1
  have hb2 : (billPayment.payType == "CreditCard") = false := by simpa using h2
  unfold saveBillPayment saveBillPaymentBody
  cases hf : billPayment.lines.foldlM (billPaymentLineStep db billPayment)
      ([], 0, none) with
  | error e => simp [hf, Bind.bind, Except.bind]
  | ok st =>
      obtain ⟨accounts, debitAmt, ctx⟩ := st
      simp [hf, billPaymentBankAccountId, hb1, hb2, Bind.bind, Except.bind]

/-- Witness for C10 at a concrete input: `PayType = "Cash"` persists nothing. -/
theorem claim10_bad_pay_type_saves_nothing_witness :
    saveBillPayment sampleDB
      { id := "41", payType := "Cash", currency := "USD", exchangeRate := 1,
        totalAmt := 10, txnDate := "2024-01-05" } = sampleDB :=
  claim10_bad_pay_type_saves_nothing sampleDB _ (by decide) (by decide)

end QBMigrator
